import Mathlib

/-!
Shallow embedding of the AI Suggestion Pipeline of the smart-todo repository
(`ai_integration/ai_module.py`, consumed by `tasks/views.py`).

The pipeline's values originate from `json.loads` applied to LLM output and
are then mutated by plain Python dict operations, so we model a Python value
universe (`PyVal`), Python truthiness, `int()` coercion, `datetime.strptime`
with the fixed format `%Y-%m-%d %H:%M:%S`, and `json.loads`, and on top of
them the functions `_initialize_llm_client`, `_call_llm` and
`get_task_suggestions` of class `AITaskManagement`.

Modelling conventions:
* Python floats are IEEE-754 binary64 doubles: a JSON decimal literal is
  converted by correct rounding (round to nearest, ties to even, overflow
  to an infinity, underflow to zero — see `decimalToDouble`), and a finite
  double is represented by its exact value `mantissa * 2 ^ exp2` (the
  negative-zero sign is not tracked; `-0.0` and `0.0` agree in truthiness
  and `int()`, which is all the pipeline does with floats);
* Python exceptions are modelled by `Except PyExc`; the exception messages
  follow CPython's wording;
* the outbound network call of the OpenAI client is modelled by an
  `adapter` function from the request to either raw response text or a
  raised exception; the trace of attempted network calls is returned
  alongside the result.
-/

/-- A timestamp as produced by Python `datetime.datetime`
(year, month, day, hour, minute, second, microsecond). -/
structure DT where
  year : Nat
  month : Nat
  day : Nat
  hour : Nat
  minute : Nat
  second : Nat
  microsecond : Nat
deriving DecidableEq, Repr

/-- The universe of Python values flowing through the pipeline: everything
`json.loads` can produce (including the non-standard `NaN`/`Infinity`
constants CPython's decoder accepts by default), plus `datetime` objects,
which the post-processing writes into the suggestion dict. A finite float
is an IEEE-754 binary64 double held by its exact value
`mantissa * 2 ^ exp2`; the non-finite doubles are `pnan` and `pinf`. -/
inductive PyVal where
  | pnull
  | pbool (b : Bool)
  | pint (n : Int)
  | pfloat (mantissa : Int) (exp2 : Int)
  | pnan
  | pinf (positive : Bool)
  | pstr (s : String)
  | plist (xs : List PyVal)
  | pdict (fields : List (String × PyVal))
  | pdatetime (t : DT)

/-- Python exceptions relevant to the pipeline, with their messages. -/
inductive PyExc where
  | typeError (msg : String)
  | valueError (msg : String)
  | overflowError (msg : String)
  | attributeError (msg : String)
  | keyError (msg : String)
deriving DecidableEq, Repr

/-- Does `except (ValueError, TypeError)` catch this exception? -/
def PyExc.caughtByValueTypeError : PyExc → Bool
  | .typeError _ => true
  | .valueError _ => true
  | _ => false

/-- Does `except ValueError` catch this exception? -/
def PyExc.caughtByValueError : PyExc → Bool
  | .valueError _ => true
  | _ => false

/-- Python's name for the runtime type of a value (as used in error
messages). -/
def PyVal.typeName : PyVal → String
  | .pnull => "NoneType"
  | .pbool _ => "bool"
  | .pint _ => "int"
  | .pfloat _ _ => "float"
  | .pnan => "float"
  | .pinf _ => "float"
  | .pstr _ => "str"
  | .plist _ => "list"
  | .pdict _ => "dict"
  | .pdatetime _ => "datetime.datetime"

/-- Association-list lookup modelling Python `d[k]` / `k in d` on dicts. -/
def dictLookup : List (String × PyVal) → String → Option PyVal
  | [], _ => none
  | (k, v) :: rest, key => if k = key then some v else dictLookup rest key

/-- Python `d.get(k, default)` on a dict. -/
def dictLookupD (d : List (String × PyVal)) (key : String) (default : PyVal) : PyVal :=
  match dictLookup d key with
  | some v => v
  | none => default

/-- Python `d[k] = v` on a dict: overwrites in place (keeping the original
insertion position of the key) or appends a new key at the end, matching
CPython's insertion-order semantics. -/
def dictSet : List (String × PyVal) → String → PyVal → List (String × PyVal)
  | [], key, v => [(key, v)]
  | (k, w) :: rest, key, v =>
      if k = key then (k, v) :: rest else (k, w) :: dictSet rest key v

/-- Substring occurrence check: does `needle` occur as a prefix of `hay`? -/
def leadsWith : List Char → List Char → Bool
  | [], _ => true
  | _ :: _, [] => false
  | a :: as, b :: bs => a == b && leadsWith as bs

/-- Substring occurrence check (used for Python `needle in haystack` on
strings). -/
def occursIn (needle : List Char) : List Char → Bool
  | [] => leadsWith needle []
  | c :: rest => leadsWith needle (c :: rest) || occursIn needle rest

/-- Python truthiness (`bool(x)`): `None`, `False`, zero, empty string,
empty list and empty dict are falsy; everything else (including `nan`,
infinities and datetimes) is truthy. -/
def truthy : PyVal → Bool
  | .pnull => false
  | .pbool b => b
  | .pint n => n != 0
  | .pfloat m _ => m != 0
  | .pnan => true
  | .pinf _ => true
  | .pstr s => s != ""
  | .plist xs => !xs.isEmpty
  | .pdict d => !d.isEmpty
  | .pdatetime _ => true

/-- Python `isinstance(x, list)`. -/
def isPyList : PyVal → Bool
  | .plist _ => true
  | _ => false

/-- Value of a decimal digit character. -/
def digitVal (c : Char) : Nat := c.toNat - 48

/-- Is `c` an ASCII decimal digit? -/
def isDig (c : Char) : Bool := 48 ≤ c.toNat && c.toNat ≤ 57

/-- Parse a non-empty run of decimal digits (used by the model of Python
`int(str)`). Returns the value and the remaining characters. -/
def takeDigits : List Char → Option Nat → Option (Nat × List Char)
  | c :: rest, acc =>
      if isDig c then takeDigits rest (some ((acc.getD 0) * 10 + digitVal c))
      else match acc with
        | some n => some (n, c :: rest)
        | none => none
  | [], some n => some (n, [])
  | [], none => none

/-- ASCII whitespace recognised by Python `str.strip()` and by `\s` for the
inputs we model (space, tab, newline, carriage return, vertical tab, form
feed, by code point). -/
def isPySpace (c : Char) : Bool :=
  c.toNat = 32 || c.toNat = 9 || c.toNat = 10 || c.toNat = 13 || c.toNat = 11 ||
    c.toNat = 12

/-- Model of Python `int(s)` for a string argument: optional surrounding
whitespace, an optional sign, then decimal digits, optionally grouped by
single underscores between digits. Returns `none` where CPython raises
`ValueError` (non-digit-only strings, including a lone sign, floats such
as `"42.5"`, and the empty string). -/
def pyIntOfString (s : String) : Option Int :=
  let cs := (s.toList.dropWhile isPySpace).reverse.dropWhile isPySpace |>.reverse
  let (sign, body) : Int × List Char :=
    match cs with
    | '-' :: rest => (-1, rest)
    | '+' :: rest => (1, rest)
    | _ => (1, cs)
  match digitsWithUnderscores body with
  | some n => some (sign * n)
  | none => none
where
  /-- digits possibly separated by single underscores, at least one digit,
  starting and ending with a digit -/
  digitsWithUnderscores (cs : List Char) : Option Nat :=
    go cs none
  go : List Char → Option Nat → Option Nat
    | [], some n => some n
    | [], none => none
    | c :: rest, acc =>
        if isDig c then go rest (some ((acc.getD 0) * 10 + digitVal c))
        else if c == '_' then
          match acc, rest with
          | some n, r :: rs => if isDig r then go rs (some (n * 10 + digitVal r)) else none
          | _, _ => none
        else none

/-- Model of Python `int(x)`: identity on ints, `True`/`False` to 1/0,
finite floats (exact value `m * 2 ^ e`) truncate toward zero, numeric
strings parse, `NaN`/infinities raise `ValueError`/`OverflowError`, and
non-numeric types raise `TypeError`. -/
def pyIntCoerce : PyVal → Except PyExc Int
  | .pint n => .ok n
  | .pbool b => .ok (if b then 1 else 0)
  | .pfloat m e =>
      .ok (if 0 ≤ e then m * (2 : Int) ^ e.toNat else Int.tdiv m ((2 : Int) ^ (-e).toNat))
  | .pnan => .error (.valueError "cannot convert float NaN to integer")
  | .pinf _ => .error (.overflowError "cannot convert float infinity to integer")
  | .pstr s =>
      match pyIntOfString s with
      | some n => .ok n
      | none => .error (.valueError ("invalid literal for int() with base 10: '" ++ s ++ "'"))
  | v => .error (.typeError ("int() argument must be a string, a bytes-like object or a real number, not '" ++ v.typeName ++ "'"))

/-- `pyIntCoerce` as an `Option` (used in derived statements). -/
def pyIntCoerceOpt (v : PyVal) : Option Int :=
  match pyIntCoerce v with
  | .ok n => some n
  | .error _ => none

/-! ### Model of `datetime.strptime(s, '%Y-%m-%d %H:%M:%S')`

CPython's `_strptime` compiles the format to the anchored regex
`(?P<Y>\d\d\d\d)-(?P<m>1[0-2]|0[1-9]|[1-9])-(?P<d>3[01]|[12]\d|0[1-9]|[1-9]| [1-9])\s+(?P<H>2[0-3]|[0-1]\d|\d):(?P<M>[0-5]\d|\d):(?P<S>6[0-1]|[0-5]\d|\d)`
(whitespace in the format matches one or more whitespace characters, and
numeric fields tolerate missing zero padding), requires the whole string to
be consumed, and then builds a `datetime`, which re-validates year/day/second
ranges. Each field parser below implements its regex alternation in order;
for this format ordered committed choice coincides with the regex since each
field is followed by a non-digit separator. -/

/-- `%Y`: exactly four decimal digits. -/
def parseYearF : List Char → Option (Nat × List Char)
  | c1 :: c2 :: c3 :: c4 :: rest =>
      if 48 ≤ c1.toNat ∧ c1.toNat ≤ 57 ∧ 48 ≤ c2.toNat ∧ c2.toNat ≤ 57 ∧
          48 ≤ c3.toNat ∧ c3.toNat ≤ 57 ∧ 48 ≤ c4.toNat ∧ c4.toNat ≤ 57 then
        some (1000 * digitVal c1 + 100 * digitVal c2 + 10 * digitVal c3 + digitVal c4, rest)
      else none
  | _ => none

/-- `%m`: `1[0-2]|0[1-9]|[1-9]`. -/
def parseMonthF : List Char → Option (Nat × List Char)
  | c1 :: c2 :: rest =>
      if c1.toNat = 49 ∧ 48 ≤ c2.toNat ∧ c2.toNat ≤ 50 then some (10 + digitVal c2, rest)
      else if c1.toNat = 48 ∧ 49 ≤ c2.toNat ∧ c2.toNat ≤ 57 then some (digitVal c2, rest)
      else if 49 ≤ c1.toNat ∧ c1.toNat ≤ 57 then some (digitVal c1, c2 :: rest)
      else none
  | [c1] => if 49 ≤ c1.toNat ∧ c1.toNat ≤ 57 then some (digitVal c1, []) else none
  | [] => none

/-- `%d`: `3[01]|[12]\d|0[1-9]|[1-9]| [1-9]`. -/
def parseDayF : List Char → Option (Nat × List Char)
  | c1 :: c2 :: rest =>
      if c1.toNat = 51 ∧ 48 ≤ c2.toNat ∧ c2.toNat ≤ 49 then some (30 + digitVal c2, rest)
      else if (c1.toNat = 49 ∨ c1.toNat = 50) ∧ 48 ≤ c2.toNat ∧ c2.toNat ≤ 57 then
        some (10 * digitVal c1 + digitVal c2, rest)
      else if c1.toNat = 48 ∧ 49 ≤ c2.toNat ∧ c2.toNat ≤ 57 then some (digitVal c2, rest)
      else if 49 ≤ c1.toNat ∧ c1.toNat ≤ 57 then some (digitVal c1, c2 :: rest)
      else if c1.toNat = 32 ∧ 49 ≤ c2.toNat ∧ c2.toNat ≤ 57 then some (digitVal c2, rest)
      else none
  | [c1] => if 49 ≤ c1.toNat ∧ c1.toNat ≤ 57 then some (digitVal c1, []) else none
  | [] => none

/-- `%H`: `2[0-3]|[0-1]\d|\d`. -/
def parseHourF : List Char → Option (Nat × List Char)
  | c1 :: c2 :: rest =>
      if c1.toNat = 50 ∧ 48 ≤ c2.toNat ∧ c2.toNat ≤ 51 then some (20 + digitVal c2, rest)
      else if (c1.toNat = 48 ∨ c1.toNat = 49) ∧ 48 ≤ c2.toNat ∧ c2.toNat ≤ 57 then
        some (10 * digitVal c1 + digitVal c2, rest)
      else if 48 ≤ c1.toNat ∧ c1.toNat ≤ 57 then some (digitVal c1, c2 :: rest)
      else none
  | [c1] => if 48 ≤ c1.toNat ∧ c1.toNat ≤ 57 then some (digitVal c1, []) else none
  | [] => none

/-- `%M`: `[0-5]\d|\d`. -/
def parseMinuteF : List Char → Option (Nat × List Char)
  | c1 :: c2 :: rest =>
      if 48 ≤ c1.toNat ∧ c1.toNat ≤ 53 ∧ 48 ≤ c2.toNat ∧ c2.toNat ≤ 57 then
        some (10 * digitVal c1 + digitVal c2, rest)
      else if 48 ≤ c1.toNat ∧ c1.toNat ≤ 57 then some (digitVal c1, c2 :: rest)
      else none
  | [c1] => if 48 ≤ c1.toNat ∧ c1.toNat ≤ 57 then some (digitVal c1, []) else none
  | [] => none

/-- `%S`: `6[0-1]|[0-5]\d|\d`. -/
def parseSecondF : List Char → Option (Nat × List Char)
  | c1 :: c2 :: rest =>
      if c1.toNat = 54 ∧ 48 ≤ c2.toNat ∧ c2.toNat ≤ 49 then some (60 + digitVal c2, rest)
      else if 48 ≤ c1.toNat ∧ c1.toNat ≤ 53 ∧ 48 ≤ c2.toNat ∧ c2.toNat ≤ 57 then
        some (10 * digitVal c1 + digitVal c2, rest)
      else if 48 ≤ c1.toNat ∧ c1.toNat ≤ 57 then some (digitVal c1, c2 :: rest)
      else none
  | [c1] => if 48 ≤ c1.toNat ∧ c1.toNat ≤ 57 then some (digitVal c1, []) else none
  | [] => none

/-- A literal separator character of the format. -/
def expectCh (c : Char) : List Char → Option (List Char)
  | x :: rest => if x = c then some rest else none
  | [] => none

/-- `\s+`: one or more whitespace characters (the format's literal space). -/
def parseWsPlus : List Char → Option (List Char)
  | x :: rest => if isPySpace x then some (rest.dropWhile isPySpace) else none
  | [] => none

/-- Is `y` a Gregorian leap year (Python `calendar.isleap`)? -/
def isLeapYear (y : Nat) : Bool :=
  y % 4 = 0 && (y % 100 ≠ 0 || y % 400 = 0)

/-- Days in a month, as validated by the `datetime` constructor. -/
def daysInMonth (y m : Nat) : Nat :=
  if m = 2 then (if isLeapYear y then 29 else 28)
  else if m = 4 || m = 6 || m = 9 || m = 11 then 30
  else 31

/-- The regex phase of `strptime` for the fixed format: returns the six
numeric fields, or `none` when the pattern does not match or input remains
("unconverted data"). -/
def strptimeRun (cs : List Char) : Option (Nat × Nat × Nat × Nat × Nat × Nat) :=
  match parseYearF cs with
  | none => none
  | some (y, r1) =>
    match expectCh '-' r1 with
    | none => none
    | some r2 =>
      match parseMonthF r2 with
      | none => none
      | some (mo, r3) =>
        match expectCh '-' r3 with
        | none => none
        | some r4 =>
          match parseDayF r4 with
          | none => none
          | some (d, r5) =>
            match parseWsPlus r5 with
            | none => none
            | some r6 =>
              match parseHourF r6 with
              | none => none
              | some (h, r7) =>
                match expectCh ':' r7 with
                | none => none
                | some r8 =>
                  match parseMinuteF r8 with
                  | none => none
                  | some (mi, r9) =>
                    match expectCh ':' r9 with
                    | none => none
                    | some r10 =>
                      match parseSecondF r10 with
                      | none => none
                      | some (s, r11) =>
                        if r11 = [] then some (y, mo, d, h, mi, s) else none

/-- Model of `datetime.strptime(s, '%Y-%m-%d %H:%M:%S')`: `none` where
CPython raises `ValueError` (either the regex fails or the `datetime`
constructor rejects year 0, an out-of-range day, or a leap second). -/
def strptimeModel (s : String) : Option DT :=
  match strptimeRun s.toList with
  | some (y, mo, d, h, mi, sec) =>
      if 1 ≤ y ∧ d ≤ daysInMonth y mo ∧ sec ≤ 59 then
        some ⟨y, mo, d, h, mi, sec, 0⟩
      else none
  | none => none

/-! ### Model of `json.loads`

A recursive-descent parser following CPython's `json` scanner: the same
grammar (including the non-standard `NaN`, `Infinity` and `-Infinity`
constants accepted by default), the same whitespace set, and the scanner's
error messages with `line/column/char` positions. Fuel bounds the recursion
depth; the initial fuel (input length + 1) can never be exhausted because
every nested value consumes at least one character. Unicode escapes that
denote lone surrogates (which Python keeps in its `str` type) are mapped to
U+FFFD, as Lean characters are scalar values; no claim depends on them. -/

/-- JSON whitespace (space, tab, newline, carriage return). -/
def isJsonWs (c : Char) : Bool :=
  c == ' ' || c == '\t' || c == '\n' || c == '\x0d'

/-- Skip JSON whitespace, tracking the absolute position. -/
def jsonSkipWs : List Char → Nat → List Char × Nat
  | c :: rest, p => if isJsonWs c then jsonSkipWs rest (p + 1) else (c :: rest, p)
  | [], p => ([], p)

/-- Line and column of an absolute position, as `JSONDecodeError` computes
them (1-based; column counts from the last newline before the position). -/
def jsonLineCol (doc : List Char) (pos : Nat) : Nat × Nat :=
  go (doc.take pos) 0 1 none
where
  go : List Char → Nat → Nat → Option Nat → Nat × Nat
    | [], _, line, lastNl =>
        (line, match lastNl with
               | some i => pos - i
               | none => pos + 1)
    | c :: rest, i, line, lastNl =>
        if c = '\n' then go rest (i + 1) (line + 1) (some i)
        else go rest (i + 1) line lastNl

/-- Format a decode error as `str(json.JSONDecodeError)` does. -/
def jsonErrMsg (doc : List Char) (base : String) (pos : Nat) : String :=
  let lc := jsonLineCol doc pos
  base ++ ": line " ++ toString lc.1 ++ " column " ++ toString lc.2 ++
    " (char " ++ toString pos ++ ")"

/-- Value of a hexadecimal digit, if any. -/
def hexVal (c : Char) : Option Nat :=
  if 48 ≤ c.toNat && c.toNat ≤ 57 then some (c.toNat - 48)
  else if 97 ≤ c.toNat && c.toNat ≤ 102 then some (c.toNat - 87)
  else if 65 ≤ c.toNat && c.toNat ≤ 70 then some (c.toNat - 55)
  else none

/-- Parse exactly four hex digits of a `\uXXXX` escape. -/
def parseHex4 : List Char → Option (Nat × List Char)
  | c1 :: c2 :: c3 :: c4 :: rest =>
      match hexVal c1, hexVal c2, hexVal c3, hexVal c4 with
      | some a, some b, some c, some d => some (4096 * a + 256 * b + 16 * c + d, rest)
      | _, _, _, _ => none
  | _ => none

/-- Remove a key from a dict (helper for duplicate-key handling). -/
def dictRemove : List (String × PyVal) → String → List (String × PyVal)
  | [], _ => []
  | (k, v) :: rest, key =>
      if k = key then dictRemove rest key else (k, v) :: dictRemove rest key

/-- Prepend an object member to the members parsed after it, with CPython's
duplicate-key semantics: the first occurrence of a key keeps its position
but the last occurrence's value wins. -/
def jsonConsMember (key : String) (v : PyVal) (d : List (String × PyVal)) :
    List (String × PyVal) :=
  match dictLookup d key with
  | some w => (key, w) :: dictRemove d key
  | none => (key, v) :: d

/-- Parse the body of a JSON string after the opening quote. `start` is the
position of the opening quote (used by the "Unterminated string" error). -/
def jsonParseStringBody (start : Nat) : Nat → List Char → Nat →
    Except (String × Nat) (String × List Char × Nat)
  | 0, _, _ => .error ("Unterminated string starting at", start)
  | _ + 1, [], _ => .error ("Unterminated string starting at", start)
  | fuel + 1, c :: rest, p =>
      if c = '"' then .ok ("", rest, p + 1)
      else if c = '\\' then
        match rest with
        | [] => .error ("Unterminated string starting at", start)
        | e :: rest2 =>
          let simple : Option Char :=
            if e = '"' then some '"'
            else if e = '\\' then some '\\'
            else if e = '/' then some '/'
            else if e = 'b' then some '\x08'
            else if e = 'f' then some '\x0c'
            else if e = 'n' then some '\n'
            else if e = 'r' then some '\x0d'
            else if e = 't' then some '\t'
            else none
          match simple with
          | some ch =>
              match jsonParseStringBody start fuel rest2 (p + 2) with
              | .ok (s, r, p2) => .ok (String.mk (ch :: s.toList), r, p2)
              | .error err => .error err
          | none =>
            if e = 'u' then
              match parseHex4 rest2 with
              | none => .error ("Invalid \\uXXXX escape", p + 1)
              | some (n, rest3) =>
                if 55296 ≤ n && n ≤ 56319 then
                  match rest3 with
                  | '\\' :: 'u' :: rest4 =>
                    match parseHex4 rest4 with
                    | some (lo, rest5) =>
                      if 56320 ≤ lo && lo ≤ 57343 then
                        let scalar := 65536 + (n - 55296) * 1024 + (lo - 56320)
                        match jsonParseStringBody start fuel rest5 (p + 12) with
                        | .ok (s, r, p2) => .ok (String.mk (Char.ofNat scalar :: s.toList), r, p2)
                        | .error err => .error err
                      else
                        match jsonParseStringBody start fuel rest3 (p + 6) with
                        | .ok (s, r, p2) => .ok (String.mk ('\xfd' :: s.toList), r, p2)
                        | .error err => .error err
                    | none =>
                        match jsonParseStringBody start fuel rest3 (p + 6) with
                        | .ok (s, r, p2) => .ok (String.mk ('\xfd' :: s.toList), r, p2)
                        | .error err => .error err
                  | _ =>
                      match jsonParseStringBody start fuel rest3 (p + 6) with
                      | .ok (s, r, p2) => .ok (String.mk ('\xfd' :: s.toList), r, p2)
                      | .error err => .error err
                else
                  match jsonParseStringBody start fuel rest3 (p + 6) with
                  | .ok (s, r, p2) => .ok (String.mk (Char.ofNat n :: s.toList), r, p2)
                  | .error err => .error err
            else .error ("Invalid \\escape", p + 1)
      else if c.toNat < 32 then .error ("Invalid control character at", p)
      else
        match jsonParseStringBody start fuel rest (p + 1) with
        | .ok (s, r, p2) => .ok (String.mk (c :: s.toList), r, p2)
        | .error err => .error err

/-- Digits with their count (for fraction scaling). -/
def takeDigitsCount : List Char → Nat → Nat → Nat × Nat × List Char
  | c :: rest, acc, cnt =>
      if isDig c then takeDigitsCount rest (acc * 10 + digitVal c) (cnt + 1)
      else (acc, cnt, c :: rest)
  | [], acc, cnt => (acc, cnt, [])

/-- Fuel-driven bit-length worker (structural, so it reduces). -/
def natBitsGo : Nat → Nat → Nat
  | 0, _ => 0
  | fuel + 1, n => if n = 0 then 0 else natBitsGo fuel (n / 2) + 1

/-- Bit length of a natural number (`natBits 0 = 0`); the fuel `n` covers
the `bits n ≤ n` iterations needed. -/
def natBits (n : Nat) : Nat := natBitsGo n n

/-- Euclidean division of `(p / q) * 2 ^ k` for a possibly negative shift
`k`: returns the integer quotient, the remainder, and the denominator the
remainder is taken against. -/
def shiftDiv (p q : Nat) (k : Int) : Nat × Nat × Nat :=
  if 0 ≤ k then
    let p2 := p * 2 ^ k.toNat
    (p2 / q, p2 % q, q)
  else
    let q2 := q * 2 ^ (-k).toNat
    (p / q2, p % q2, q2)

/-- Round `n + r / q2` (with `0 ≤ r < q2`) to the nearest integer, ties to
even. -/
def roundHalfEven (n r q2 : Nat) : Nat :=
  if q2 < 2 * r then n + 1
  else if 2 * r = q2 then (if n % 2 = 0 then n else n + 1)
  else n

/-- Correctly rounded conversion of the decimal `m * 10 ^ e10` to an
IEEE-754 binary64 double, the value CPython's float constructor (and hence
`json.loads`) produces for a decimal literal: round to nearest with ties to
even at 53 significant bits, subnormals below `2 ^ -1022` rounded at the
fixed quantum `2 ^ -1074`, underflow to `0.0` and overflow to the signed
infinity. The finite result is the normalised `significand * 2 ^ exponent`
pair (53-bit significand, or fewer bits only at exponent `-1074`). -/
def decimalToDouble (m : Int) (e10 : Int) : PyVal :=
  if m = 0 then .pfloat 0 0 else
  let sgn : Int := if 0 ≤ m then 1 else -1
  let a := m.natAbs
  let pq : Nat × Nat :=
    if 0 ≤ e10 then (a * 10 ^ e10.toNat, 1) else (a, 10 ^ (-e10).toNat)
  let p := pq.1
  let q := pq.2
  let E0 : Int := (natBits p : Int) - (natBits q : Int)
  let eA : Int := if E0 - 53 < -1074 then -1074 else E0 - 53
  let t := shiftDiv p q (-eA)
  let eB : Int := if 2 ^ 53 ≤ t.1 then eA + 1 else eA
  let t2 := if 2 ^ 53 ≤ t.1 then shiftDiv p q (-eB) else t
  let n2 := roundHalfEven t2.1 t2.2.1 t2.2.2
  let ne : Nat × Int := if n2 = 2 ^ 53 then (2 ^ 52, eB + 1) else (n2, eB)
  if 971 < ne.2 then .pinf (0 ≤ m)
  else if ne.1 = 0 then .pfloat 0 0
  else .pfloat (sgn * ne.1) ne.2

/-- Parse a JSON number after an optional leading minus sign has been
recognised. Follows the scanner's regex
`(-?(?:0|[1-9]\d*))(\.\d+)?([eE][-+]?\d+)?`: an integer-only match yields a
Python `int`, otherwise the correctly rounded binary64 `float` of the
literal via `decimalToDouble`, as `json.loads`'s `float()` hook does. -/
def jsonParseNumber (neg : Bool) : List Char → Nat →
    Option (PyVal × List Char × Nat)
  | cs, p =>
    let intPart : Option (Nat × Nat × List Char) :=
      match cs with
      | '0' :: rest => some (0, 1, rest)
      | c :: _ =>
          if isDig c && 1 ≤ digitVal c then
            let r := takeDigitsCount cs 0 0
            some (r.1, r.2.1, r.2.2)
          else none
      | [] => none
    match intPart with
    | none => none
    | some (ival, ilen, rest1) =>
      let (fracVal, fracLen, rest2) :=
        match rest1 with
        | '.' :: d :: rest =>
            if isDig d then
              let r := takeDigitsCount (d :: rest) 0 0
              (r.1, r.2.1, r.2.2)
            else (0, 0, rest1)
        | _ => (0, 0, rest1)
      let expPart : Option (Int × Nat × List Char) :=
        match rest2 with
        | e :: rest =>
            if e = 'e' || e = 'E' then
              match rest with
              | '+' :: d :: rs =>
                  if isDig d then
                    let r := takeDigitsCount (d :: rs) 0 0
                    some ((r.1 : Int), r.2.1 + 2, r.2.2)
                  else none
              | '-' :: d :: rs =>
                  if isDig d then
                    let r := takeDigitsCount (d :: rs) 0 0
                    some (-(r.1 : Int), r.2.1 + 2, r.2.2)
                  else none
              | d :: rs =>
                  if isDig d then
                    let r := takeDigitsCount (d :: rs) 0 0
                    some ((r.1 : Int), r.2.1 + 1, r.2.2)
                  else none
              | [] => none
            else none
        | [] => none
      let sign : Int := if neg then -1 else 1
      match fracLen, expPart with
      | 0, none =>
          some (.pint (sign * ival), rest1, p + ilen)
      | fl, none =>
          let consumed := ilen + (if fl = 0 then 0 else fl + 1)
          some (decimalToDouble (sign * (ival * 10 ^ fl + fracVal)) (-(fl : Int)),
                rest2, p + consumed)
      | fl, some (ev, elen, rest3) =>
          let consumed := ilen + (if fl = 0 then 0 else fl + 1) + elen + 1
          some (decimalToDouble (sign * (ival * 10 ^ fl + fracVal)) (ev - (fl : Int)),
                rest3, p + consumed)

mutual

/-- Parse one JSON value. Mirrors the scanner's dispatch on the first
character; errors are `("Expecting value", pos)` and friends. -/
def jsonParseVal : Nat → List Char → Nat →
    Except (String × Nat) (PyVal × List Char × Nat)
  | 0, _, p => .error ("Expecting value", p)
  | _ + 1, [], p => .error ("Expecting value", p)
  | fuel + 1, c :: rest, p =>
      if c = '"' then
        match jsonParseStringBody p fuel rest (p + 1) with
        | .ok (s, r, p2) => .ok (.pstr s, r, p2)
        | .error err => .error err
      else if c = '\x7b' then
        jsonParseObj fuel rest (p + 1) p
      else if c = '[' then
        jsonParseArr fuel rest (p + 1) p
      else if leadsWith ['n', 'u', 'l', 'l'] (c :: rest) then
        .ok (.pnull, rest.drop 3, p + 4)
      else if leadsWith ['t', 'r', 'u', 'e'] (c :: rest) then
        .ok (.pbool true, rest.drop 3, p + 4)
      else if leadsWith ['f', 'a', 'l', 's', 'e'] (c :: rest) then
        .ok (.pbool false, rest.drop 4, p + 5)
      else if leadsWith ['N', 'a', 'N'] (c :: rest) then
        .ok (.pnan, rest.drop 2, p + 3)
      else if leadsWith ['I', 'n', 'f', 'i', 'n', 'i', 't', 'y'] (c :: rest) then
        .ok (.pinf true, rest.drop 7, p + 8)
      else if leadsWith ['-', 'I', 'n', 'f', 'i', 'n', 'i', 't', 'y'] (c :: rest) then
        .ok (.pinf false, rest.drop 8, p + 9)
      else if c = '-' then
        match jsonParseNumber true rest (p + 1) with
        | some out => .ok out
        | none => .error ("Expecting value", p)
      else
        match jsonParseNumber false (c :: rest) p with
        | some out => .ok out
        | none => .error ("Expecting value", p)
  termination_by structural fuel _cs _p => fuel

/-- Parse array items after `[`. -/
def jsonParseArr : Nat → List Char → Nat → Nat →
    Except (String × Nat) (PyVal × List Char × Nat)
  | 0, _, p, _ => .error ("Expecting value", p)
  | fuel + 1, cs, p, _ =>
      let (cs1, p1) := jsonSkipWs cs p
      match cs1 with
      | ']' :: r => .ok (.plist [], r, p1 + 1)
      | _ =>
        match jsonParseItems fuel cs1 p1 with
        | .ok (xs, r, p2) => .ok (.plist xs, r, p2)
        | .error err => .error err
  termination_by structural fuel _cs _p _q => fuel

/-- One-or-more comma-separated array items, then `]`. -/
def jsonParseItems : Nat → List Char → Nat →
    Except (String × Nat) (List PyVal × List Char × Nat)
  | 0, _, p => .error ("Expecting value", p)
  | fuel + 1, cs, p =>
      match jsonParseVal fuel cs p with
      | .error err => .error err
      | .ok (v, r1, p1) =>
        let (r2, p2) := jsonSkipWs r1 p1
        match r2 with
        | ']' :: r => .ok ([v], r, p2 + 1)
        | ',' :: r =>
            let (r3, p3) := jsonSkipWs r (p2 + 1)
            match jsonParseItems fuel r3 p3 with
            | .ok (xs, rr, pp) => .ok (v :: xs, rr, pp)
            | .error err => .error err
        | _ => .error ("Expecting ',' delimiter", p2)
  termination_by structural fuel _cs _p => fuel

/-- Parse object members after the opening brace (its position is `lbPos`). -/
def jsonParseObj : Nat → List Char → Nat → Nat →
    Except (String × Nat) (PyVal × List Char × Nat)
  | 0, _, p, _ => .error ("Expecting value", p)
  | fuel + 1, cs, p, _ =>
      let (cs1, p1) := jsonSkipWs cs p
      match cs1 with
      | '\x7d' :: r => .ok (.pdict [], r, p1 + 1)
      | '"' :: r =>
          match jsonParseMembers fuel ('"' :: r) p1 with
          | .ok (d, rr, pp) => .ok (.pdict d, rr, pp)
          | .error err => .error err
      | _ => .error ("Expecting property name enclosed in double quotes", p1)
  termination_by structural fuel _cs _p _q => fuel

/-- One-or-more `"key": value` members, then the closing brace. -/
def jsonParseMembers : Nat → List Char → Nat →
    Except (String × Nat) (List (String × PyVal) × List Char × Nat)
  | 0, _, p => .error ("Expecting value", p)
  | fuel + 1, cs, p =>
      match cs with
      | '"' :: r =>
        match jsonParseStringBody p fuel r (p + 1) with
        | .error err => .error err
        | .ok (key, r1, p1) =>
          let (r2, p2) := jsonSkipWs r1 p1
          match r2 with
          | ':' :: r3 =>
            let (r4, p4) := jsonSkipWs r3 (p2 + 1)
            match jsonParseVal fuel r4 p4 with
            | .error err => .error err
            | .ok (v, r5, p5) =>
              let (r6, p6) := jsonSkipWs r5 p5
              match r6 with
              | '\x7d' :: r7 => .ok ([(key, v)], r7, p6 + 1)
              | ',' :: r7 =>
                  let (r8, p8) := jsonSkipWs r7 (p6 + 1)
                  match jsonParseMembers fuel r8 p8 with
                  | .ok (d, rr, pp) => .ok (jsonConsMember key v d, rr, pp)
                  | .error err => .error err
              | _ => .error ("Expecting ',' delimiter", p6)
          | _ => .error ("Expecting ':' delimiter", p2)
      | _ => .error ("Expecting property name enclosed in double quotes", p)
  termination_by structural fuel _cs _p => fuel

end

/-- Model of `json.loads`: parse one value surrounded by optional
whitespace; anything left over is "Extra data". On failure the formatted
`JSONDecodeError` message (as produced by `str(e)`) is returned. -/
def jsonLoads (s : String) : Except String PyVal :=
  let doc := s.toList
  let (cs1, p1) := jsonSkipWs doc 0
  match jsonParseVal (2 * doc.length + 4) cs1 p1 with
  | .error (m, q) => .error (jsonErrMsg doc m q)
  | .ok (v, r, p2) =>
      let (r2, p3) := jsonSkipWs r p2
      match r2 with
      | [] => .ok v
      | _ => .error (jsonErrMsg doc "Extra data" p3)

/-! ### Calendar arithmetic for `datetime.now() + timedelta(days=3)` -/

/-- Advance a timestamp by one calendar day. -/
def addOneDay (t : DT) : DT :=
  if t.day < daysInMonth t.year t.month then { t with day := t.day + 1 }
  else if t.month < 12 then { t with month := t.month + 1, day := 1 }
  else { t with year := t.year + 1, month := 1, day := 1 }

/-- The default deadline of the orchestrator:
`datetime.now() + timedelta(days=3)` with
`.replace(hour=17, minute=0, second=0, microsecond=0)`. -/
def defaultDeadline (now : DT) : DT :=
  { addOneDay (addOneDay (addOneDay now)) with
    hour := 17, minute := 0, second := 0, microsecond := 0 }

/-! ### Rendering of values into prompt text

Models `str(x)` (f-string interpolation) and `json.dumps`. These renderings
only ever end up inside prompt strings; no claim inspects their fine
formatting, so a finite float is rendered from its exact
significand/exponent pair rather than reproducing CPython's
shortest-round-trip float repr. -/

/-- Zero-padded decimal rendering. -/
def padNat (width n : Nat) : String :=
  let s := toString n
  if s.length < width then String.mk (List.replicate (width - s.length) '0') ++ s else s

mutual

/-- Python `repr`, which `str` coincides with on every value except
top-level strings and datetimes. -/
def pyReprV : PyVal → String
  | .pnull => "None"
  | .pbool b => if b then "True" else "False"
  | .pint n => toString n
  | .pfloat m e => toString m ++ "*2^" ++ toString e
  | .pnan => "nan"
  | .pinf b => if b then "inf" else "-inf"
  | .pstr s => "'" ++ s ++ "'"
  | .plist xs => "[" ++ pyReprL xs ++ "]"
  | .pdict d => "\x7b" ++ pyReprD d ++ "\x7d"
  | .pdatetime t =>
      "datetime.datetime(" ++ toString t.year ++ ", " ++ toString t.month ++ ", " ++
        toString t.day ++ ", " ++ toString t.hour ++ ", " ++ toString t.minute ++ ", " ++
        toString t.second ++ ", " ++ toString t.microsecond ++ ")"
  termination_by structural v => v

/-- Comma-separated reprs of list elements. -/
def pyReprL : List PyVal → String
  | [] => ""
  | [x] => pyReprV x
  | x :: y :: rest => pyReprV x ++ ", " ++ pyReprL (y :: rest)
  termination_by structural xs => xs

/-- Comma-separated reprs of dict members. -/
def pyReprD : List (String × PyVal) → String
  | [] => ""
  | [(k, v)] => "'" ++ k ++ "': " ++ pyReprV v
  | (k, v) :: m :: rest => "'" ++ k ++ "': " ++ pyReprV v ++ ", " ++ pyReprD (m :: rest)
  termination_by structural d => d

end

/-- Python `str(x)` as used by f-string interpolation. -/
def pyFormat : PyVal → String
  | .pstr s => s
  | .pdatetime t =>
      padNat 4 t.year ++ "-" ++ padNat 2 t.month ++ "-" ++ padNat 2 t.day ++ " " ++
        padNat 2 t.hour ++ ":" ++ padNat 2 t.minute ++ ":" ++ padNat 2 t.second
  | v => pyReprV v

mutual

/-- Model of `json.dumps` on a value: standard JSON rendering (with the
`NaN`/`Infinity` extensions); datetimes are not JSON serializable, so as in
CPython they raise `TypeError`. -/
def jsonDumpsV : PyVal → Except PyExc String
  | .pnull => .ok "null"
  | .pbool b => .ok (if b then "true" else "false")
  | .pint n => .ok (toString n)
  | .pfloat m e => .ok (toString m ++ "*2^" ++ toString e)
  | .pnan => .ok "NaN"
  | .pinf b => .ok (if b then "Infinity" else "-Infinity")
  | .pstr s => .ok ("\"" ++ s ++ "\"")
  | .plist xs =>
      match jsonDumpsL xs with
      | .ok body => .ok ("[" ++ body ++ "]")
      | .error e => .error e
  | .pdict d =>
      match jsonDumpsD d with
      | .ok body => .ok ("\x7b" ++ body ++ "\x7d")
      | .error e => .error e
  | .pdatetime _ =>
      .error (.typeError "Object of type datetime is not JSON serializable")
  termination_by structural v => v

/-- Members of a dumped list. -/
def jsonDumpsL : List PyVal → Except PyExc String
  | [] => .ok ""
  | [x] => jsonDumpsV x
  | x :: y :: rest =>
      match jsonDumpsV x, jsonDumpsL (y :: rest) with
      | .ok a, .ok b => .ok (a ++ ", " ++ b)
      | .error e, _ => .error e
      | _, .error e => .error e
  termination_by structural xs => xs

/-- Members of a dumped dict. -/
def jsonDumpsD : List (String × PyVal) → Except PyExc String
  | [] => .ok ""
  | [(k, v)] =>
      match jsonDumpsV v with
      | .ok a => .ok ("\"" ++ k ++ "\": " ++ a)
      | .error e => .error e
  | (k, v) :: m :: rest =>
      match jsonDumpsV v, jsonDumpsD (m :: rest) with
      | .ok a, .ok b => .ok ("\"" ++ k ++ "\": " ++ a ++ ", " ++ b)
      | .error e, _ => .error e
      | _, .error e => .error e
  termination_by structural d => d

end

/-! ### Python dict/list operations used by the post-processing code -/

/-- Python `x.get(key, default)`: defined for dicts; any other value raises
`AttributeError` (no `get` attribute). -/
def pyGet (v : PyVal) (key : String) (default : PyVal) : Except PyExc PyVal :=
  match v with
  | .pdict d => .ok (dictLookupD d key default)
  | w => .error (.attributeError ("'" ++ w.typeName ++ "' object has no attribute 'get'"))

/-- Python `key in x` for a string key: key test on dicts, membership on
lists (a string equals only an equal string), substring test on strings;
other types raise `TypeError`. -/
def pyContains (v : PyVal) (key : String) : Except PyExc Bool :=
  match v with
  | .pdict d => .ok (dictLookup d key).isSome
  | .plist xs =>
      .ok (xs.any fun x =>
        match x with
        | .pstr s => s == key
        | _ => false)
  | .pstr s => .ok (occursIn key.toList s.toList)
  | w => .error (.typeError ("argument of type '" ++ w.typeName ++ "' is not iterable"))

/-- Python `x[key]` for a string key. -/
def pyGetItem (v : PyVal) (key : String) : Except PyExc PyVal :=
  match v with
  | .pdict d =>
      match dictLookup d key with
      | some w => .ok w
      | none => .error (.keyError key)
  | .plist _ => .error (.typeError "list indices must be integers or slices, not str")
  | .pstr _ => .error (.typeError "string indices must be integers")
  | w => .error (.typeError ("'" ++ w.typeName ++ "' object is not subscriptable"))

/-- Python `x[key] = value` for a string key. -/
def pySetItem (v : PyVal) (key : String) (value : PyVal) : Except PyExc PyVal :=
  match v with
  | .pdict d => .ok (.pdict (dictSet d key value))
  | .plist _ => .error (.typeError "list indices must be integers or slices, not str")
  | w => .error (.typeError ("'" ++ w.typeName ++ "' object does not support item assignment"))

/-- Python `datetime.strptime(v, '%Y-%m-%d %H:%M:%S')` on an arbitrary
value: non-strings raise `TypeError` (which the deadline code's
`except ValueError` does NOT catch), unparseable strings raise
`ValueError`. -/
def pyStrptime (v : PyVal) : Except PyExc DT :=
  match v with
  | .pstr s =>
      match strptimeModel s with
      | some t => .ok t
      | none =>
          .error (.valueError ("time data '" ++ s ++ "' does not match format '%Y-%m-%d %H:%M:%S'"))
  | w => .error (.typeError ("strptime() argument 1 must be str, not " ++ w.typeName))

/-! ### The LLM client layer (`AITaskManagement.__init__`, `_initialize_llm_client`, `_call_llm`)

A chat-completion request is modelled by the arguments that vary between
call sites (`prompt`, `model_name`, `max_tokens`); the fixed parts of every
request (the system message "You are a smart task management assistant.
Provide responses in JSON format.", `response_format={"type":
"json_object"}` and `temperature=0.7`) do not vary and are not recorded.
The network behaviour of `self.client.chat.completions.create` plus the
extraction of `response.choices[0].message.content` is modelled by an
`adapter` function from the request to either the raw response text or a
raised exception. -/

/-- The `api_choice` configuration (`'openai'`, `'claude'` or
`'lm_studio'`); any other string makes the constructor raise, so only these
three inhabit the model. -/
inductive ApiChoice where
  | openai
  | claude
  | lm_studio
deriving DecidableEq, Repr

/-- One attempted chat-completion request. -/
structure LLMCall where
  prompt : String
  model_name : String
  max_tokens : Nat
deriving DecidableEq, Repr

/-- What the network call does: return raw response text, or raise. -/
inductive AdapterOutcome where
  | success (raw : String)
  | failure (errMsg : String)
deriving DecidableEq, Repr

/-- The state of an `AITaskManagement` instance: the configured backend,
whether `self.client` is non-`None`, and the modelled network behaviour. -/
structure AITaskManagement where
  api_choice : ApiChoice
  client : Bool
  adapter : LLMCall → AdapterOutcome

/-- Model of `_initialize_llm_client`, reduced to whether `self.client`
ends up non-`None`: the `'openai'` and `'lm_studio'` branches construct an
`OpenAI` client object (for `'openai'`, even with a missing API key the
code only prints a warning); the `'claude'` branch prints that the client
is not implemented and returns `None`. -/
def _initialize_llm_client (api_choice : ApiChoice) : Bool :=
  match api_choice with
  | .openai => true
  | .claude => false
  | .lm_studio => true

/-- An `AITaskManagement(api_choice=...)` instance with the given modelled
network behaviour. -/
def mkAITaskManagement (api_choice : ApiChoice) (adapter : LLMCall → AdapterOutcome) :
    AITaskManagement :=
  ⟨api_choice, _initialize_llm_client api_choice, adapter⟩

/-- Model of `AITaskManagement._call_llm`. Returns the parsed value
(`_call_llm` never raises: its `try` is closed by
`except json.JSONDecodeError` and `except Exception`) together with the
list of attempted network calls:
* uninitialized client: prints and returns `{}`, no network call;
* `'openai'`/`'lm_studio'`: one network call; a raised exception yields
  `{"error": str(e)}`; undecodable response text yields
  `{"error": "JSON decoding failed", "details": str(e)}`;
* `'claude'` (with a non-`None` client, which `_initialize_llm_client`
  never produces): prints and returns `{}`, no network call. -/
def _call_llm (self : AITaskManagement) (prompt : String) (model_name : String)
    (max_tokens : Nat) : PyVal × List LLMCall :=
  if self.client = false then (.pdict [], [])
  else
    match self.api_choice with
    | .claude => (.pdict [], [])
    | _ =>
      let call : LLMCall := ⟨prompt, model_name, max_tokens⟩
      match self.adapter call with
      | .failure msg => (.pdict [("error", .pstr msg)], [call])
      | .success raw =>
          match jsonLoads raw with
          | .ok v => (v, [call])
          | .error msg =>
              (.pdict [("error", .pstr "JSON decoding failed"), ("details", .pstr msg)],
               [call])

/-! ### The suggestion orchestrator (`get_task_suggestions`) -/

/-- A context entry as fetched by the views layer
(`ContextEntry.objects.values('content', 'source_type')`). -/
structure ContextEntry where
  content : String
  source_type : String
deriving DecidableEq, Repr

/-- The `task_details` dict as built at every in-repo call site
(`views.perform_create` / `re_evaluate_ai`): the keys `title`,
`description` and `category` are always present, `category` possibly
`None`, so the `.get` defaults `''`/`'Uncategorized'` of
`get_task_suggestions` are never taken. -/
structure TaskDetails where
  title : String
  description : String
  category : Option String

/-- The task's category as a Python value (`None` or a string). -/
def pyOfOptStr : Option String → PyVal
  | none => .pnull
  | some s => .pstr s

/-- The combined context string: one `"Source: <source_type>: <content>"`
line per entry, in input order, joined by newlines
(`"\n".join(f"Source: {c['source_type']}: {c['content']}" ...)`). -/
def combinedContextOf (daily_context_data : List ContextEntry) : String :=
  String.intercalate "\n"
    (daily_context_data.map fun c => "Source: " ++ c.source_type ++ ": " ++ c.content)

/-- The summarization prompt (`context_summary_prompt` f-string). -/
def contextSummaryPromptOf (daily_context_data : List ContextEntry) : String :=
  "Summarize the following daily context in a concise manner, highlighting any urgent matters, commitments, or schedule conflicts.\n            Context:\n            " ++
    combinedContextOf daily_context_data ++ "\n            "

/-- Lines 122-131 of `get_task_suggestions`: the context summary used by
the suggestion prompt, together with the attempted network calls. For a
non-empty context the summarization result's `.get('summary', fallback)`
raises `AttributeError` when the decoded JSON is not an object. -/
def contextSummaryStep (self : AITaskManagement) (daily_context_data : List ContextEntry) :
    Except PyExc PyVal × List LLMCall :=
  match daily_context_data with
  | [] => (.ok (.pstr "No daily context available."), [])
  | _ :: _ =>
      let combined_context := combinedContextOf daily_context_data
      let (summary_response, calls) :=
        _call_llm self (contextSummaryPromptOf daily_context_data) "gpt-3.5-turbo" 150
      (pyGet summary_response "summary" (.pstr (combined_context.take 200 ++ "...")), calls)

/-- The main suggestion prompt (lines 134-161), given the already-rendered
context summary text and the already-dumped user preferences. -/
def suggestionPrompt (task_title task_description : String) (task_category : Option String)
    (context_summary_text : String) (prefs_dump : String) (current_task_load : Int) :
    String :=
  "\n        Given the following task details, daily context, user preferences, and current task load, provide AI-powered suggestions.\n        The output should be a JSON object with the following keys:\n        - \"priority_score\": An integer from 1 to 100 (100 being highest priority), reflecting urgency and importance.\n        - \"deadline\": A suggested deadline in YYYY-MM-DD HH:MM:SS format, or null if no clear deadline can be inferred.\n        - \"suggested_category\": A concise suggested category or tag for the task (e.g., 'Work', 'Personal', 'Finance', 'Health', 'Shopping').\n        - \"enhanced_description\": An improved and more detailed task description, incorporating relevant context-aware details.\n        - \"recommendations\": A list of short, actionable recommendations or sub-tasks related to the main task.\n\n        Task Title: " ++
    task_title ++ "\n        Task Description: " ++ task_description ++
    "\n        Existing Category: " ++ pyFormat (pyOfOptStr task_category) ++
    "\n\n        Daily Context Summary:\n        " ++ context_summary_text ++
    "\n\n        User Preferences: " ++ prefs_dump ++
    "\n        Current Task Load: " ++ toString current_task_load ++
    " pending tasks\n\n        Consider the following when generating suggestions:\n        - **Urgency:** Look for keywords like \"urgent\", \"deadline\", \"ASAP\", dates, or implied timeframes in context.\n        - **Importance:** Identify key entities, people, or projects mentioned.\n        - **Complexity:** Estimate effort based on description.\n        - **Workload:** Suggest realistic deadlines given the current task load.\n        - **Contextual Relevance:** Integrate details from the daily context into the enhanced description.\n        - **Categorization:** Suggest a category that best fits the task and context.\n        - **Default Deadline:** If no clear deadline is inferred, suggest a reasonable default, like 3 days from now, at a standard end-of-day time (e.g., 5 PM).\n        "

/-- Lines 166-172: coerce and clamp `priority_score` under
`try/except (ValueError, TypeError)`; the `except` branch itself assigns
into `suggestions`, which propagates `TypeError` on a non-dict. -/
def priorityStep (suggestions : PyVal) : Except PyExc PyVal :=
  if truthy suggestions then
    match pyContains suggestions "priority_score" with
    | .error e => .error e
    | .ok false => .ok suggestions
    | .ok true =>
      let tryBlock : Except PyExc PyVal := do
        let v ← pyGetItem suggestions "priority_score"
        let n ← pyIntCoerce v
        let s1 ← pySetItem suggestions "priority_score" (.pint n)
        let v2 ← pyGetItem s1 "priority_score"
        match v2 with
        | .pint k => pySetItem s1 "priority_score" (.pint (max 1 (min 100 k)))
        | w => .error (.typeError ("'<' not supported between instances of 'int' and '" ++ w.typeName ++ "'"))
      match tryBlock with
      | .ok s2 => .ok s2
      | .error e =>
          if e.caughtByValueTypeError then pySetItem suggestions "priority_score" (.pint 50)
          else .error e
  else .ok suggestions

/-- Lines 174-183: parse `deadline` under `try/except ValueError` when it
is present and truthy (a truthy non-string raises `TypeError`, which is not
caught), otherwise assign `None` into the dict (which raises `TypeError`
on a falsy non-dict such as a decoded `null`, `0` or `[]`). -/
def deadlineParseStep (suggestions : PyVal) : Except PyExc PyVal :=
  let condition : Except PyExc (Option PyVal) :=
    if truthy suggestions then
      match pyContains suggestions "deadline" with
      | .error e => .error e
      | .ok false => .ok none
      | .ok true =>
        match pyGetItem suggestions "deadline" with
        | .error e => .error e
        | .ok v => .ok (if truthy v then some v else none)
    else .ok none
  match condition with
  | .error e => .error e
  | .ok (some v) =>
      match pyStrptime v with
      | .ok t => pySetItem suggestions "deadline" (.pdatetime t)
      | .error e =>
          if e.caughtByValueError then pySetItem suggestions "deadline" .pnull
          else .error e
  | .ok none => pySetItem suggestions "deadline" .pnull

/-- Lines 186-189: if `suggestions['deadline'] is None`, install the
default deadline `now + timedelta(days=3)` at 17:00:00.000000. -/
def deadlineDefaultStep (suggestions : PyVal) (now : DT) : Except PyExc PyVal :=
  if truthy suggestions then
    match pyGetItem suggestions "deadline" with
    | .error e => .error e
    | .ok .pnull => pySetItem suggestions "deadline" (.pdatetime (defaultDeadline now))
    | .ok _ => .ok suggestions
  else .ok suggestions

/-- Lines 191-193: replace a present non-list `recommendations` by `[]`. -/
def recommendationsStep (suggestions : PyVal) : Except PyExc PyVal :=
  if truthy suggestions then
    match pyContains suggestions "recommendations" with
    | .error e => .error e
    | .ok false => .ok suggestions
    | .ok true =>
      match pyGetItem suggestions "recommendations" with
      | .error e => .error e
      | .ok v =>
          if isPyList v then .ok suggestions
          else pySetItem suggestions "recommendations" (.plist [])
  else .ok suggestions

/-- Lines 196-203: the returned dict literal, built with `.get` defaults
from the post-processed `suggestions` value (which is also embedded whole
under `ai_raw_response`). -/
def buildResult (suggestions : PyVal) (task_category : Option String)
    (task_description : String) : Except PyExc (List (String × PyVal)) := do
  let p ← pyGet suggestions "priority_score" (.pint 50)
  let d ← pyGet suggestions "deadline" .pnull
  let c ← pyGet suggestions "suggested_category" (pyOfOptStr task_category)
  let e ← pyGet suggestions "enhanced_description" (.pstr task_description)
  let r ← pyGet suggestions "recommendations" (.plist [])
  pure [("priority_score", p), ("deadline", d), ("suggested_category", c),
        ("enhanced_description", e), ("recommendations", r),
        ("ai_raw_response", suggestions)]

/-- Lines 165-203: post-processing, validation and assembly of the
returned suggestions dict. -/
def postProcess (suggestions : PyVal) (task_category : Option String)
    (task_description : String) (now : DT) : Except PyExc (List (String × PyVal)) := do
  let s1 ← priorityStep suggestions
  let s2 ← deadlineParseStep s1
  let s3 ← deadlineDefaultStep s2 now
  let s4 ← recommendationsStep s3
  buildResult s4 task_category task_description

/-- Model of `AITaskManagement.get_task_suggestions`. `now` stands for
`datetime.now()`. Returns the result (a dict, or the uncaught exception)
together with the trace of attempted network calls. -/
def get_task_suggestions (self : AITaskManagement) (task_details : TaskDetails)
    (daily_context_data : List ContextEntry) (user_preferences : List (String × PyVal))
    (current_task_load : Int) (now : DT) :
    Except PyExc (List (String × PyVal)) × List LLMCall :=
  let task_title := task_details.title
  let task_description := task_details.description
  let task_category := task_details.category
  match contextSummaryStep self daily_context_data with
  | (.error e, calls) => (.error e, calls)
  | (.ok context_summary_text, calls1) =>
      match jsonDumpsV (.pdict user_preferences) with
      | .error e => (.error e, calls1)
      | .ok prefs_dump =>
          let prompt := suggestionPrompt task_title task_description task_category
            (pyFormat context_summary_text) prefs_dump current_task_load
          let (suggestions, calls2) := _call_llm self prompt "gpt-4o-mini" 400
          (postProcess suggestions task_category task_description now, calls1 ++ calls2)

/-! ### Derived outcome summaries and spec-side definitions -/

/-- An `AITaskManagement('openai')` instance whose every network call
succeeds and returns the same raw text (used to quantify over all
LLM-layer results). -/
def openaiConst (raw : String) : AITaskManagement :=
  mkAITaskManagement .openai (fun _ => .success raw)

/-- An `AITaskManagement('openai')` instance whose every network call
raises (total LLM outage). -/
def openaiOutage (errMsg : String) : AITaskManagement :=
  mkAITaskManagement .openai (fun _ => .failure errMsg)

/-- The final `priority_score` as a function of the LLM result's
`priority_score` field: coercible values are clamped into `[1, 100]`,
coercion failures and absence give 50. -/
def priorityFinal : Option PyVal → Int
  | none => 50
  | some v =>
      match pyIntCoerceOpt v with
      | some n => max 1 (min 100 n)
      | none => 50

/-- The final `recommendations` as a function of the LLM result's
`recommendations` field: lists pass through, everything else (including
absence) becomes `[]`. -/
def recommendationsFinal : Option PyVal → PyVal
  | none => .plist []
  | some v => if isPyList v then v else .plist []

/-- The final `deadline` as a function of the LLM result's `deadline`
field, for the cases in which `get_task_suggestions` returns at all (a
truthy non-string deadline raises `TypeError` instead): a non-empty string
is parsed by `strptime`, falling back to the default deadline when the
parse fails; everything else gets the default deadline. -/
def deadlineFinal (o : Option PyVal) (now : DT) : DT :=
  match o with
  | some (.pstr s) =>
      if s = "" then defaultDeadline now
      else
        match strptimeModel s with
        | some t => t
        | none => defaultDeadline now
  | _ => defaultDeadline now

/-- A decimal digit character (used to build exactly-formatted timestamp
strings on the specification side). -/
def digCh (n : Nat) : Char := Char.ofNat (48 + n % 10)

/-- Four-digit zero-padded field of the exact `YYYY-MM-DD HH:MM:SS`
format. -/
def pad4L (n : Nat) : List Char :=
  [digCh (n / 1000), digCh (n / 100), digCh (n / 10), digCh n]

/-- Two-digit zero-padded field of the exact format. -/
def pad2L (n : Nat) : List Char := [digCh (n / 10), digCh n]

/-- The timestamp `y-mo-d h:mi:s` rendered in the exact
`YYYY-MM-DD HH:MM:SS` format of the specification (all fields
zero-padded). -/
def exactFormatString (y mo d h mi s : Nat) : String :=
  String.mk (pad4L y ++ '-' :: pad2L mo ++ '-' :: pad2L d ++ ' ' :: pad2L h ++
    ':' :: pad2L mi ++ ':' :: pad2L s)

/-- Specification-side checker of the exact `YYYY-MM-DD HH:MM:SS` shape
(four digits, dash, two digits, dash, two digits, space, two digits,
colon, two digits, colon, two digits — nothing else). Written from the
spec's words, for comparison with the code's lenient parser. -/
def isExactFormat (s : String) : Bool :=
  match s.toList with
  | [y1, y2, y3, y4, a, m1, m2, b, d1, d2, c, h1, h2, e, n1, n2, f, s1, s2] =>
      isDig y1 && isDig y2 && isDig y3 && isDig y4 && a == '-' &&
      isDig m1 && isDig m2 && b == '-' && isDig d1 && isDig d2 && c == ' ' &&
      isDig h1 && isDig h2 && e == ':' && isDig n1 && isDig n2 && f == ':' &&
      isDig s1 && isDig s2
  | _ => false

/-- Dict-level outcome of `priorityStep` (see `priorityStep_dict`). -/
def priOutcome (d : List (String × PyVal)) : Except PyExc (List (String × PyVal)) :=
  match dictLookup d "priority_score" with
  | none => .ok d
  | some v =>
      match pyIntCoerce v with
      | .ok n => .ok (dictSet d "priority_score" (.pint (max 1 (min 100 n))))
      | .error e =>
          if e.caughtByValueTypeError then .ok (dictSet d "priority_score" (.pint 50))
          else .error e

/-- Dict-level outcome of `deadlineParseStep` (see
`deadlineParseStep_dict`). -/
def dlOutcome (d : List (String × PyVal)) : Except PyExc (List (String × PyVal)) :=
  match dictLookup d "deadline" with
  | some v =>
      if truthy v then
        match v with
        | .pstr s =>
            .ok (dictSet d "deadline"
              (match strptimeModel s with
               | some t => .pdatetime t
               | none => .pnull))
        | w => .error (.typeError ("strptime() argument 1 must be str, not " ++ w.typeName))
      else .ok (dictSet d "deadline" .pnull)
  | none => .ok (dictSet d "deadline" .pnull)

/-- Dict-level outcome of `deadlineDefaultStep` (see
`deadlineDefaultStep_dict`). -/
def dlDefOutcome (d : List (String × PyVal)) (now : DT) :
    Except PyExc (List (String × PyVal)) :=
  if d.isEmpty then .ok d
  else
    match dictLookup d "deadline" with
    | none => .error (.keyError "deadline")
    | some .pnull => .ok (dictSet d "deadline" (.pdatetime (defaultDeadline now)))
    | some _ => .ok d

/-- Dict-level outcome of `recommendationsStep` (see
`recommendationsStep_dict`). -/
def recOutcome (d : List (String × PyVal)) : List (String × PyVal) :=
  match dictLookup d "recommendations" with
  | none => d
  | some v => if isPyList v then d else dictSet d "recommendations" (.plist [])

/-- Dict-level outcome of `buildResult` (see `buildResult_dict`). -/
def buildD (d : List (String × PyVal)) (task_category : Option String)
    (task_description : String) : List (String × PyVal) :=
  [("priority_score", dictLookupD d "priority_score" (.pint 50)),
   ("deadline", dictLookupD d "deadline" .pnull),
   ("suggested_category", dictLookupD d "suggested_category" (pyOfOptStr task_category)),
   ("enhanced_description", dictLookupD d "enhanced_description" (.pstr task_description)),
   ("recommendations", dictLookupD d "recommendations" (.plist [])),
   ("ai_raw_response", .pdict d)]

/-! ### Concrete inputs and outputs used by the claim witnesses -/

/-- The value `deadlineParseStep` leaves under the `deadline` key, as a
function of the incoming field (for the non-raising cases). -/
def dlFieldVal : Option PyVal → PyVal
  | some (.pstr s) =>
      if s = "" then .pnull
      else
        match strptimeModel s with
        | some t => .pdatetime t
        | none => .pnull
  | _ => .pnull

/-- Concrete task used by the witnesses (mirrors what
`views.perform_create` passes for a task with a category). -/
def tdSample : TaskDetails := ⟨"Buy milk", "get milk from store", some "Errands"⟩

/-- Concrete `datetime.now()` used by the witnesses. -/
def nowSample : DT := ⟨2025, 1, 1, 12, 30, 45, 999⟩

/-- The raw LLM response of the C1 witness. -/
def C1rawS : String := "\x7b\"priority_score\": \"150\"\x7d"

/-- Its decoded dict. -/
def C1dictS : List (String × PyVal) := [("priority_score", PyVal.pstr "150")]

/-- The record `get_task_suggestions` returns for it: the coercible numeric
string `"150"` is clamped to the upper bound 100. -/
def C1outS : List (String × PyVal) :=
  [("priority_score", PyVal.pint 100),
   ("deadline", PyVal.pdatetime ⟨2025, 1, 4, 17, 0, 0, 0⟩),
   ("suggested_category", PyVal.pstr "Errands"),
   ("enhanced_description", PyVal.pstr "get milk from store"),
   ("recommendations", PyVal.plist []),
   ("ai_raw_response", PyVal.pdict
     [("priority_score", PyVal.pint 100),
      ("deadline", PyVal.pdatetime ⟨2025, 1, 4, 17, 0, 0, 0⟩)])]

/-- The raw LLM response of the C2 witness (exactly formatted deadline). -/
def C2rawS : String := "\x7b\"deadline\": \"2025-03-10 09:00:00\"\x7d"

/-- Its decoded dict. -/
def C2dictS : List (String × PyVal) := [("deadline", PyVal.pstr "2025-03-10 09:00:00")]

/-- The record returned for it: the deadline is the parsed timestamp. -/
def C2outS : List (String × PyVal) :=
  [("priority_score", PyVal.pint 50),
   ("deadline", PyVal.pdatetime ⟨2025, 3, 10, 9, 0, 0, 0⟩),
   ("suggested_category", PyVal.pstr "Errands"),
   ("enhanced_description", PyVal.pstr "get milk from store"),
   ("recommendations", PyVal.plist []),
   ("ai_raw_response", PyVal.pdict
     [("deadline", PyVal.pdatetime ⟨2025, 3, 10, 9, 0, 0, 0⟩)])]

/-- The record returned for the unpadded deadline string
`"2025-3-10 09:00:00"`. -/
def C2ceOutS : List (String × PyVal) :=
  [("priority_score", PyVal.pint 50),
   ("deadline", PyVal.pdatetime ⟨2025, 3, 10, 9, 0, 0, 0⟩),
   ("suggested_category", PyVal.pstr "Errands"),
   ("enhanced_description", PyVal.pstr "get milk from store"),
   ("recommendations", PyVal.plist []),
   ("ai_raw_response", PyVal.pdict
     [("deadline", PyVal.pdatetime ⟨2025, 3, 10, 9, 0, 0, 0⟩)])]

/-- The raw LLM response of the C7 witness (string-valued
recommendations). -/
def C7rawS : String := "\x7b\"recommendations\": \"do it now\"\x7d"

/-- Its decoded dict. -/
def C7dictS : List (String × PyVal) := [("recommendations", PyVal.pstr "do it now")]

/-- The record returned for it: recommendations is replaced by `[]`. -/
def C7outS : List (String × PyVal) :=
  [("priority_score", PyVal.pint 50),
   ("deadline", PyVal.pdatetime ⟨2025, 1, 4, 17, 0, 0, 0⟩),
   ("suggested_category", PyVal.pstr "Errands"),
   ("enhanced_description", PyVal.pstr "get milk from store"),
   ("recommendations", PyVal.plist []),
   ("ai_raw_response", PyVal.pdict
     [("recommendations", PyVal.plist []),
      ("deadline", PyVal.pdatetime ⟨2025, 1, 4, 17, 0, 0, 0⟩)])]

/-- The record returned under total outage with message "down" (used by
the C10 witness). -/
def C10outS : List (String × PyVal) :=
  [("priority_score", PyVal.pint 50),
   ("deadline", PyVal.pdatetime ⟨2025, 1, 4, 17, 0, 0, 0⟩),
   ("suggested_category", PyVal.pstr "Errands"),
   ("enhanced_description", PyVal.pstr "get milk from store"),
   ("recommendations", PyVal.plist []),
   ("ai_raw_response", PyVal.pdict
     [("error", PyVal.pstr "down"),
      ("deadline", PyVal.pdatetime ⟨2025, 1, 4, 17, 0, 0, 0⟩)])]


/-! ### Lemmas about the dict operations -/

theorem dictLookup_dictSet_self (d : List (String × PyVal)) (k : String) (v : PyVal) :
    dictLookup (dictSet d k v) k = some v := by
  induction d with
  | nil => simp [dictSet, dictLookup]
  | cons hd tl ih =>
      cases hd with
      | mk k0 w =>
          by_cases h : k0 = k <;> simp [dictSet, dictLookup, h, ih]

theorem dictLookup_dictSet_ne (d : List (String × PyVal)) (k k' : String) (v : PyVal)
    (h : k' ≠ k) : dictLookup (dictSet d k v) k' = dictLookup d k' := by
  induction d with
  | nil => simp [dictSet, dictLookup, Ne.symm h]
  | cons hd tl ih =>
      cases hd with
      | mk k0 w =>
          by_cases h0 : k0 = k
          · subst h0
            simp [dictSet, dictLookup, Ne.symm h]
          · simp [dictSet, dictLookup, h0, ih]

theorem truthy_pdict (d : List (String × PyVal)) : truthy (.pdict d) = !d.isEmpty := rfl

theorem dictSet_dictSet_self (d : List (String × PyVal)) (k : String) (v w : PyVal) :
    dictSet (dictSet d k v) k w = dictSet d k w := by
  induction d with
  | nil => simp [dictSet]
  | cons hd tl ih =>
      cases hd with
      | mk k0 u =>
          by_cases h : k0 = k <;> simp [dictSet, h, ih]

theorem dictSet_isEmpty (d : List (String × PyVal)) (k : String) (v : PyVal) :
    (dictSet d k v).isEmpty = false := by
  cases d with
  | nil => simp [dictSet]
  | cons hd tl =>
      cases hd with
      | mk k0 u => by_cases h : k0 = k <;> simp [dictSet, h]

/-! ### Characterization of the post-processing steps on dict inputs -/

theorem priorityStep_dict (d : List (String × PyVal)) :
    priorityStep (.pdict d) = (priOutcome d).map .pdict := by
  by_cases hd : d.isEmpty
  · rw [List.isEmpty_iff] at hd
    subst hd
    simp [priorityStep, truthy, priOutcome, dictLookup, Except.map]
  · cases hl : dictLookup d "priority_score" with
    | none =>
        simp [priorityStep, truthy, hd, pyContains, hl, priOutcome, Except.map]
    | some v =>
        cases hc : pyIntCoerce v with
        | ok n =>
            simp [priorityStep, truthy, hd, pyContains, hl, priOutcome, Except.map,
              pyGetItem, pySetItem, hc, bind, Except.bind, dictLookup_dictSet_self,
              dictSet_dictSet_self]
        | error e =>
            cases he : e.caughtByValueTypeError <;>
              simp [priorityStep, truthy, hd, pyContains, hl, priOutcome, Except.map,
                pyGetItem, pySetItem, hc, he, bind, Except.bind]

theorem deadlineParseStep_dict (d : List (String × PyVal)) :
    deadlineParseStep (.pdict d) = (dlOutcome d).map .pdict := by
  cases hl : dictLookup d "deadline" with
  | none =>
      by_cases hd : d.isEmpty
      · rw [List.isEmpty_iff] at hd
        subst hd
        simp [deadlineParseStep, truthy_pdict, dlOutcome, dictLookup, pySetItem,
          Except.map]
      · simp [deadlineParseStep, truthy_pdict, hd, pyContains, hl, dlOutcome, pySetItem,
          Except.map]
  | some v =>
      have hd : d.isEmpty = false := by
        cases d with
        | nil => simp [dictLookup] at hl
        | cons hd0 tl => simp
      cases htv : truthy v with
      | false =>
          simp [deadlineParseStep, truthy_pdict, hd, pyContains, hl, pyGetItem, htv,
            dlOutcome, pySetItem, Except.map]
      | true =>
          cases v with
          | pstr s =>
              cases hp : strptimeModel s with
              | none =>
                  simp [deadlineParseStep, truthy_pdict, hd, pyContains, hl, pyGetItem,
                    htv, dlOutcome, pySetItem, Except.map, pyStrptime, hp,
                    PyExc.caughtByValueError]
              | some t =>
                  simp [deadlineParseStep, truthy_pdict, hd, pyContains, hl, pyGetItem,
                    htv, dlOutcome, pySetItem, Except.map, pyStrptime, hp]
          | pnull => simp [truthy] at htv
          | pbool b =>
              cases b with
              | false => simp [truthy] at htv
              | true =>
                  simp [deadlineParseStep, truthy_pdict, hd, pyContains, hl, pyGetItem,
                    htv, dlOutcome, pySetItem, Except.map, pyStrptime,
                    PyExc.caughtByValueError, PyVal.typeName]
          | pint n =>
              simp [deadlineParseStep, truthy_pdict, hd, pyContains, hl, pyGetItem, htv,
                dlOutcome, pySetItem, Except.map, pyStrptime,
                PyExc.caughtByValueError, PyVal.typeName]
          | pfloat m e =>
              simp [deadlineParseStep, truthy_pdict, hd, pyContains, hl, pyGetItem, htv,
                dlOutcome, pySetItem, Except.map, pyStrptime,
                PyExc.caughtByValueError, PyVal.typeName]
          | pnan =>
              simp [deadlineParseStep, truthy_pdict, hd, pyContains, hl, pyGetItem, htv,
                dlOutcome, pySetItem, Except.map, pyStrptime,
                PyExc.caughtByValueError, PyVal.typeName]
          | pinf b =>
              simp [deadlineParseStep, truthy_pdict, hd, pyContains, hl, pyGetItem, htv,
                dlOutcome, pySetItem, Except.map, pyStrptime,
                PyExc.caughtByValueError, PyVal.typeName]
          | plist xs =>
              simp [deadlineParseStep, truthy_pdict, hd, pyContains, hl, pyGetItem, htv,
                dlOutcome, pySetItem, Except.map, pyStrptime,
                PyExc.caughtByValueError, PyVal.typeName]
          | pdict d2 =>
              simp [deadlineParseStep, truthy_pdict, hd, pyContains, hl, pyGetItem, htv,
                dlOutcome, pySetItem, Except.map, pyStrptime,
                PyExc.caughtByValueError, PyVal.typeName]
          | pdatetime t =>
              simp [deadlineParseStep, truthy_pdict, hd, pyContains, hl, pyGetItem, htv,
                dlOutcome, pySetItem, Except.map, pyStrptime,
                PyExc.caughtByValueError, PyVal.typeName]

theorem deadlineDefaultStep_dict (d : List (String × PyVal)) (now : DT) :
    deadlineDefaultStep (.pdict d) now = (dlDefOutcome d now).map .pdict := by
  by_cases hd : d.isEmpty
  · rw [List.isEmpty_iff] at hd
    subst hd
    simp [deadlineDefaultStep, truthy, dlDefOutcome, Except.map]
  · cases hl : dictLookup d "deadline" with
    | none =>
        simp [deadlineDefaultStep, truthy, hd, pyGetItem, hl, dlDefOutcome, Except.map]
    | some v =>
        cases v <;>
          simp [deadlineDefaultStep, truthy, hd, pyGetItem, hl, dlDefOutcome,
            pySetItem, Except.map]

theorem recommendationsStep_dict (d : List (String × PyVal)) :
    recommendationsStep (.pdict d) = .ok (.pdict (recOutcome d)) := by
  by_cases hd : d.isEmpty
  · rw [List.isEmpty_iff] at hd
    subst hd
    simp [recommendationsStep, truthy, recOutcome, dictLookup]
  · cases hl : dictLookup d "recommendations" with
    | none =>
        simp [recommendationsStep, truthy, hd, pyContains, hl, recOutcome]
    | some v =>
        cases hv : isPyList v <;>
          simp [recommendationsStep, truthy, hd, pyContains, hl, pyGetItem, hv,
            recOutcome, pySetItem]

theorem buildResult_dict (d : List (String × PyVal)) (cat : Option String)
    (desc : String) : buildResult (.pdict d) cat desc = .ok (buildD d cat desc) := by
  simp [buildResult, pyGet, buildD, bind, Except.bind, pure, Except.pure]

theorem postProcess_dict (d : List (String × PyVal)) (cat : Option String)
    (desc : String) (now : DT) :
    postProcess (.pdict d) cat desc now =
      match priOutcome d with
      | .error e => .error e
      | .ok d1 =>
          match dlOutcome d1 with
          | .error e => .error e
          | .ok d2 =>
              match dlDefOutcome d2 now with
              | .error e => .error e
              | .ok d3 => .ok (buildD (recOutcome d3) cat desc) := by
  cases h1 : priOutcome d with
  | error e =>
      simp [postProcess, bind, Except.bind, priorityStep_dict, h1, Except.map]
  | ok d1 =>
      cases h2 : dlOutcome d1 with
      | error e =>
          simp [postProcess, bind, Except.bind, priorityStep_dict, h1,
            deadlineParseStep_dict, h2, Except.map]
      | ok d2 =>
          cases h3 : dlDefOutcome d2 now with
          | error e =>
              simp [postProcess, bind, Except.bind, priorityStep_dict, h1,
                deadlineParseStep_dict, h2, deadlineDefaultStep_dict, h3, Except.map]
          | ok d3 =>
              simp [postProcess, bind, Except.bind, priorityStep_dict, h1,
                deadlineParseStep_dict, h2, deadlineDefaultStep_dict, h3,
                recommendationsStep_dict, buildResult_dict, Except.map]

/-! ### Value-tracking lemmas through the post-processing pipeline -/

theorem priOutcome_value (d d1 : List (String × PyVal)) (h : priOutcome d = .ok d1) :
    dictLookupD d1 "priority_score" (.pint 50) =
      .pint (priorityFinal (dictLookup d "priority_score")) := by
  cases hl : dictLookup d "priority_score" with
  | none =>
      simp only [priOutcome, hl, Except.ok.injEq] at h
      subst h
      simp [dictLookupD, hl, priorityFinal]
  | some v =>
      cases hc : pyIntCoerce v with
      | ok n =>
          simp only [priOutcome, hl, hc, Except.ok.injEq] at h
          subst h
          simp [dictLookupD, dictLookup_dictSet_self, priorityFinal, pyIntCoerceOpt, hc]
      | error e =>
          cases he : e.caughtByValueTypeError with
          | false =>
              simp only [priOutcome, hl, hc, he] at h
              simp at h
          | true =>
              simp only [priOutcome, hl, hc, he, if_true, Except.ok.injEq] at h
              subst h
              simp [dictLookupD, dictLookup_dictSet_self, priorityFinal,
                pyIntCoerceOpt, hc]

theorem priOutcome_preserves (d d1 : List (String × PyVal)) (k : String)
    (h : priOutcome d = .ok d1) (hk : k ≠ "priority_score") :
    dictLookup d1 k = dictLookup d k := by
  cases hl : dictLookup d "priority_score" with
  | none =>
      simp only [priOutcome, hl, Except.ok.injEq] at h
      subst h
      rfl
  | some v =>
      cases hc : pyIntCoerce v with
      | ok n =>
          simp only [priOutcome, hl, hc, Except.ok.injEq] at h
          subst h
          exact dictLookup_dictSet_ne _ _ _ _ hk
      | error e =>
          cases he : e.caughtByValueTypeError with
          | false =>
              simp only [priOutcome, hl, hc, he] at h
              simp at h
          | true =>
              simp only [priOutcome, hl, hc, he, if_true, Except.ok.injEq] at h
              subst h
              exact dictLookup_dictSet_ne _ _ _ _ hk

theorem dlOutcome_shape (d d1 : List (String × PyVal)) (h : dlOutcome d = .ok d1) :
    d1 = dictSet d "deadline" (dlFieldVal (dictLookup d "deadline")) := by
  cases hl : dictLookup d "deadline" with
  | none =>
      simp only [dlOutcome, hl, Except.ok.injEq] at h
      subst h
      rfl
  | some v =>
      cases htv : truthy v with
      | false =>
          simp only [dlOutcome, hl, htv, Bool.false_eq_true, if_false,
            Except.ok.injEq] at h
          subst h
          cases v with
          | pstr s =>
              have hs : s = "" := by
                by_contra hs
                simp [truthy, hs] at htv
              subst hs
              simp [dlFieldVal]
          | pnull => simp [dlFieldVal]
          | pbool b => simp [dlFieldVal]
          | pint n => simp [dlFieldVal]
          | pfloat m e => simp [dlFieldVal]
          | pnan => simp [truthy] at htv
          | pinf b => simp [truthy] at htv
          | plist xs => simp [dlFieldVal]
          | pdict d2 => simp [dlFieldVal]
          | pdatetime t => simp [truthy] at htv
      | true =>
          cases v with
          | pstr s =>
              have hs : s ≠ "" := by
                by_contra hs
                simp [truthy, hs] at htv
              simp only [dlOutcome, hl, htv, if_true, Except.ok.injEq] at h
              subst h
              simp [dlFieldVal, hs]
          | pnull => simp [truthy] at htv
          | pbool b =>
              cases b with
              | false => simp [truthy] at htv
              | true =>
                  simp only [dlOutcome, hl, htv, if_true] at h
                  exact Except.noConfusion h
          | pint n =>
              simp only [dlOutcome, hl, htv, if_true] at h
              exact Except.noConfusion h
          | pfloat m e =>
              simp only [dlOutcome, hl, htv, if_true] at h
              exact Except.noConfusion h
          | pnan =>
              simp only [dlOutcome, hl, htv, if_true] at h
              exact Except.noConfusion h
          | pinf b =>
              simp only [dlOutcome, hl, htv, if_true] at h
              exact Except.noConfusion h
          | plist xs =>
              simp only [dlOutcome, hl, htv, if_true] at h
              exact Except.noConfusion h
          | pdict d2 =>
              simp only [dlOutcome, hl, htv, if_true] at h
              exact Except.noConfusion h
          | pdatetime t =>
              simp only [dlOutcome, hl, htv, if_true] at h
              exact Except.noConfusion h

theorem dlDefOutcome_dictSet (d : List (String × PyVal)) (x : PyVal) (now : DT) :
    dlDefOutcome (dictSet d "deadline" x) now =
      .ok (dictSet d "deadline"
        (match x with
         | .pnull => .pdatetime (defaultDeadline now)
         | y => y)) := by
  unfold dlDefOutcome
  rw [dictSet_isEmpty, dictLookup_dictSet_self]
  cases x <;> simp [dictSet_dictSet_self]

/-- After both deadline steps the `deadline` entry is a datetime computed
by `deadlineFinal`. -/
theorem dlFieldVal_final (o : Option PyVal) (now : DT) :
    (match dlFieldVal o with
     | .pnull => PyVal.pdatetime (defaultDeadline now)
     | y => y) = .pdatetime (deadlineFinal o now) := by
  match o with
  | none => simp [dlFieldVal, deadlineFinal]
  | some (.pstr s) =>
      by_cases hs : s = ""
      · simp [dlFieldVal, deadlineFinal, hs]
      · cases hp : strptimeModel s <;> simp [dlFieldVal, deadlineFinal, hs, hp]
  | some .pnull => simp [dlFieldVal, deadlineFinal]
  | some (.pbool b) => simp [dlFieldVal, deadlineFinal]
  | some (.pint n) => simp [dlFieldVal, deadlineFinal]
  | some (.pfloat m e) => simp [dlFieldVal, deadlineFinal]
  | some .pnan => simp [dlFieldVal, deadlineFinal]
  | some (.pinf b) => simp [dlFieldVal, deadlineFinal]
  | some (.plist xs) => simp [dlFieldVal, deadlineFinal]
  | some (.pdict d2) => simp [dlFieldVal, deadlineFinal]
  | some (.pdatetime t) => simp [dlFieldVal, deadlineFinal]

theorem recOutcome_value (d : List (String × PyVal)) :
    dictLookupD (recOutcome d) "recommendations" (.plist []) =
      recommendationsFinal (dictLookup d "recommendations") := by
  unfold recOutcome
  cases hl : dictLookup d "recommendations" with
  | none => simp [dictLookupD, hl, recommendationsFinal]
  | some v =>
      cases hv : isPyList v <;>
        simp [dictLookupD, hl, hv, recommendationsFinal, dictLookup_dictSet_self]

theorem recOutcome_preserves (d : List (String × PyVal)) (k : String)
    (hk : k ≠ "recommendations") :
    dictLookup (recOutcome d) k = dictLookup d k := by
  unfold recOutcome
  cases hl : dictLookup d "recommendations" with
  | none => rfl
  | some v =>
      cases hv : isPyList v <;> simp [hv, dictLookup_dictSet_ne _ _ _ _ hk]

/-! ### The lenient strptime parser accepts every exactly-formatted string -/

theorem digCh_toNat (x : Nat) : (digCh x).toNat = 48 + x % 10 := by
  have h : x % 10 < 10 := Nat.mod_lt _ (by norm_num)
  unfold digCh
  set y := x % 10 with hy
  interval_cases y <;> rfl

theorem digitVal_digCh (x : Nat) : digitVal (digCh x) = x % 10 := by
  unfold digitVal
  rw [digCh_toNat]
  omega

theorem isPySpace_digCh (x : Nat) : isPySpace (digCh x) = false := by
  simp only [isPySpace, digCh_toNat, Bool.or_eq_false_iff, decide_eq_false_iff_not]
  omega

theorem parseYearF_pad (y : Nat) (rest : List Char) (h : y ≤ 9999) :
    parseYearF (pad4L y ++ rest) = some (y, rest) := by
  simp only [pad4L, List.cons_append, List.nil_append, parseYearF, digCh_toNat,
    digitVal_digCh]
  rw [if_pos (by omega)]
  simp only [Option.some.injEq, Prod.mk.injEq]
  exact ⟨by omega, trivial⟩

theorem parseMonthF_pad (mo : Nat) (rest : List Char) (h1 : 1 ≤ mo) (h2 : mo ≤ 12) :
    parseMonthF (pad2L mo ++ rest) = some (mo, rest) := by
  simp only [pad2L, List.cons_append, List.nil_append, parseMonthF, digCh_toNat,
    digitVal_digCh]
  by_cases h9 : mo ≤ 9
  · rw [if_neg (by omega), if_pos (by omega)]
    simp only [Option.some.injEq, Prod.mk.injEq]
    exact ⟨by omega, trivial⟩
  · rw [if_pos (by omega)]
    simp only [Option.some.injEq, Prod.mk.injEq]
    exact ⟨by omega, trivial⟩

theorem parseDayF_pad (d : Nat) (rest : List Char) (h1 : 1 ≤ d) (h2 : d ≤ 31) :
    parseDayF (pad2L d ++ rest) = some (d, rest) := by
  simp only [pad2L, List.cons_append, List.nil_append, parseDayF, digCh_toNat,
    digitVal_digCh]
  by_cases h9 : d ≤ 9
  · rw [if_neg (by omega), if_neg (by omega), if_pos (by omega)]
    simp only [Option.some.injEq, Prod.mk.injEq]
    exact ⟨by omega, trivial⟩
  · by_cases h29 : d ≤ 29
    · rw [if_neg (by omega), if_pos (by omega)]
      simp only [Option.some.injEq, Prod.mk.injEq]
      exact ⟨by omega, trivial⟩
    · rw [if_pos (by omega)]
      simp only [Option.some.injEq, Prod.mk.injEq]
      exact ⟨by omega, trivial⟩

theorem parseHourF_pad (h : Nat) (rest : List Char) (h2 : h ≤ 23) :
    parseHourF (pad2L h ++ rest) = some (h, rest) := by
  simp only [pad2L, List.cons_append, List.nil_append, parseHourF, digCh_toNat,
    digitVal_digCh]
  by_cases h19 : h ≤ 19
  · rw [if_neg (by omega), if_pos (by omega)]
    simp only [Option.some.injEq, Prod.mk.injEq]
    exact ⟨by omega, trivial⟩
  · rw [if_pos (by omega)]
    simp only [Option.some.injEq, Prod.mk.injEq]
    exact ⟨by omega, trivial⟩

theorem parseMinuteF_pad (mi : Nat) (rest : List Char) (h2 : mi ≤ 59) :
    parseMinuteF (pad2L mi ++ rest) = some (mi, rest) := by
  simp only [pad2L, List.cons_append, List.nil_append, parseMinuteF, digCh_toNat,
    digitVal_digCh]
  rw [if_pos (by omega)]
  simp only [Option.some.injEq, Prod.mk.injEq]
  exact ⟨by omega, trivial⟩

theorem parseSecondF_pad (s : Nat) (rest : List Char) (h2 : s ≤ 59) :
    parseSecondF (pad2L s ++ rest) = some (s, rest) := by
  simp only [pad2L, List.cons_append, List.nil_append, parseSecondF, digCh_toNat,
    digitVal_digCh]
  rw [if_neg (by omega), if_pos (by omega)]
  simp only [Option.some.injEq, Prod.mk.injEq]
  exact ⟨by omega, trivial⟩

theorem parseWsPlus_pad2 (h : Nat) (rest : List Char) :
    parseWsPlus (' ' :: (pad2L h ++ rest)) = some (pad2L h ++ rest) := by
  simp only [pad2L, List.cons_append, parseWsPlus]
  rw [if_pos (by decide)]
  simp [List.dropWhile, isPySpace_digCh]

theorem daysInMonth_le (y mo : Nat) : daysInMonth y mo ≤ 31 := by
  unfold daysInMonth
  split_ifs <;> norm_num

/-- Every timestamp string in the exact `YYYY-MM-DD HH:MM:SS` format that
denotes a valid datetime is accepted by the lenient strptime model and
parses to the literal timestamp. -/
theorem strptimeModel_exactFormat (y mo d h mi s : Nat)
    (hy1 : 1 ≤ y) (hy2 : y ≤ 9999) (hm1 : 1 ≤ mo) (hm2 : mo ≤ 12)
    (hd1 : 1 ≤ d) (hd2 : d ≤ daysInMonth y mo) (hh : h ≤ 23) (hmi : mi ≤ 59)
    (hs : s ≤ 59) :
    strptimeModel (exactFormatString y mo d h mi s) = some ⟨y, mo, d, h, mi, s, 0⟩ := by
  have hd31 : d ≤ 31 := le_trans hd2 (daysInMonth_le y mo)
  have htl : (exactFormatString y mo d h mi s).toList =
      pad4L y ++ '-' :: (pad2L mo ++ '-' :: (pad2L d ++ ' ' :: (pad2L h ++
        ':' :: (pad2L mi ++ ':' :: (pad2L s ++ ([] : List Char)))))) := by
    simp [exactFormatString, String.toList]
  unfold strptimeModel
  rw [htl]
  unfold strptimeRun
  have hsec : parseSecondF (pad2L s) = some (s, []) := by
    have := parseSecondF_pad s [] hs
    simpa using this
  simp [parseYearF_pad _ _ hy2, parseMonthF_pad _ _ hm1 hm2,
    parseDayF_pad _ _ hd1 hd31, parseWsPlus_pad2, parseHourF_pad _ _ hh,
    parseMinuteF_pad _ _ hmi, parseSecondF_pad _ _ hs, hsec, expectCh, hy1, hd2, hs]

theorem priorityFinal_range (o : Option PyVal) :
    1 ≤ priorityFinal o ∧ priorityFinal o ≤ 100 := by
  cases o with
  | none => simp [priorityFinal]
  | some v =>
      cases hc : pyIntCoerceOpt v with
      | none => simp [priorityFinal, hc]
      | some n =>
          simp only [priorityFinal, hc]
          omega

theorem recommendationsFinal_isList (o : Option PyVal) :
    isPyList (recommendationsFinal o) = true := by
  cases o with
  | none => rfl
  | some v =>
      cases hv : isPyList v with
      | false =>
          simp only [recommendationsFinal, hv]
          rfl
      | true => simp only [recommendationsFinal, hv, if_true]

/-- The three validated fields of a successful `postProcess` run, as
functions of the incoming LLM result dict. -/
theorem postProcess_ok_lookups (d out : List (String × PyVal)) (cat : Option String)
    (desc : String) (now : DT)
    (h : postProcess (.pdict d) cat desc now = .ok out) :
    dictLookup out "priority_score" =
      some (.pint (priorityFinal (dictLookup d "priority_score"))) ∧
    dictLookup out "deadline" =
      some (.pdatetime (deadlineFinal (dictLookup d "deadline") now)) ∧
    dictLookup out "recommendations" =
      some (recommendationsFinal (dictLookup d "recommendations")) := by
  rw [postProcess_dict] at h
  cases h1 : priOutcome d with
  | error e =>
      simp only [h1] at h
      exact Except.noConfusion h
  | ok d1 =>
      simp only [h1] at h
      cases h2 : dlOutcome d1 with
      | error e =>
          simp only [h2] at h
          exact Except.noConfusion h
      | ok d2 =>
          simp only [h2] at h
          have hshape := dlOutcome_shape d1 d2 h2
          subst hshape
          rw [dlDefOutcome_dictSet, dlFieldVal_final] at h
          simp only [Except.ok.injEq] at h
          subst h
          have hpk : ("priority_score" : String) ≠ "recommendations" := by decide
          have hpk2 : ("priority_score" : String) ≠ "deadline" := by decide
          have hdk : ("deadline" : String) ≠ "recommendations" := by decide
          have hrk : ("recommendations" : String) ≠ "deadline" := by decide
          have hdp : ("deadline" : String) ≠ "priority_score" := by decide
          have hrp : ("recommendations" : String) ≠ "priority_score" := by decide
          have hd1d : dictLookup d1 "deadline" = dictLookup d "deadline" :=
            priOutcome_preserves d d1 "deadline" h1 hdp
          have hd1r : dictLookup d1 "recommendations" = dictLookup d "recommendations" :=
            priOutcome_preserves d d1 "recommendations" h1 hrp
          set d3 := dictSet d1 "deadline"
            (.pdatetime (deadlineFinal (dictLookup d1 "deadline") now)) with hd3
          refine ⟨?_, ?_, ?_⟩
          · have hx : dictLookup (recOutcome d3) "priority_score" =
                dictLookup d1 "priority_score" := by
              rw [recOutcome_preserves d3 "priority_score" hpk, hd3,
                dictLookup_dictSet_ne _ _ _ _ hpk2]
            have hv := priOutcome_value d d1 h1
            have hD : dictLookupD (recOutcome d3) "priority_score" (.pint 50) =
                dictLookupD d1 "priority_score" (.pint 50) := by
              rw [dictLookupD, dictLookupD, hx]
            simp only [buildD, dictLookup]
            simp [hD, hv]
          · have hx : dictLookup (recOutcome d3) "deadline" =
                some (.pdatetime (deadlineFinal (dictLookup d "deadline") now)) := by
              rw [recOutcome_preserves d3 "deadline" hdk, hd3,
                dictLookup_dictSet_self, hd1d]
            simp only [buildD, dictLookup]
            simp [dictLookupD, hx]
          · have hset : dictLookup d3 "recommendations" =
                dictLookup d "recommendations" := by
              rw [hd3, dictLookup_dictSet_ne _ _ _ _ hrk, hd1r]
            have hv := recOutcome_value d3
            rw [hset] at hv
            simp only [buildD, dictLookup]
            simp [hv]

/-- An initialized `'openai'` instance issues exactly one network call per
`_call_llm` invocation, whatever the adapter does. -/
theorem _call_llm_openai_trace (f : LLMCall → AdapterOutcome) (p m : String) (t : Nat) :
    (_call_llm (mkAITaskManagement .openai f) p m t).2 = [⟨p, m, t⟩] := by
  unfold _call_llm mkAITaskManagement _initialize_llm_client
  cases hf : f ⟨p, m, t⟩ with
  | failure msg => simp [hf]
  | success raw => cases hj : jsonLoads raw <;> simp [hf, hj]

/-- For a non-empty context, the summarization step of an initialized
`'openai'` instance issues exactly the one summarization call. -/
theorem contextSummaryStep_openai_trace (f : LLMCall → AdapterOutcome)
    (e : ContextEntry) (es : List ContextEntry) :
    (contextSummaryStep (mkAITaskManagement .openai f) (e :: es)).2 =
      [⟨contextSummaryPromptOf (e :: es), "gpt-3.5-turbo", 150⟩] := by
  unfold contextSummaryStep
  cases hX : _call_llm (mkAITaskManagement .openai f)
      (contextSummaryPromptOf (e :: es)) "gpt-3.5-turbo" 150 with
  | mk r calls =>
      have := _call_llm_openai_trace f (contextSummaryPromptOf (e :: es))
        "gpt-3.5-turbo" 150
      rw [hX] at this
      simp only [hX]
      exact this

/-- Every successful `postProcess` result is the six-entry dict literal of
the return statement. -/
theorem postProcess_shape (s : PyVal) (cat : Option String) (desc : String) (now : DT)
    (out : List (String × PyVal)) (h : postProcess s cat desc now = .ok out) :
    ∃ p dl c e r a, out = [("priority_score", p), ("deadline", dl),
      ("suggested_category", c), ("enhanced_description", e),
      ("recommendations", r), ("ai_raw_response", a)] := by
  unfold postProcess at h
  simp only [bind, Except.bind] at h
  cases h1 : priorityStep s with
  | error e0 => simp [h1] at h
  | ok s1 =>
      simp only [h1] at h
      cases h2 : deadlineParseStep s1 with
      | error e0 => simp [h2] at h
      | ok s2 =>
          simp only [h2] at h
          cases h3 : deadlineDefaultStep s2 now with
          | error e0 => simp [h3] at h
          | ok s3 =>
              simp only [h3] at h
              cases h4 : recommendationsStep s3 with
              | error e0 => simp [h4] at h
              | ok s4 =>
                  simp only [h4] at h
                  cases s4 with
                  | pdict d4 =>
                      rw [buildResult_dict] at h
                      simp only [Except.ok.injEq] at h
                      exact ⟨_, _, _, _, _, _, by rw [← h]; rfl⟩
                  | pnull => simp [buildResult, pyGet, bind, Except.bind] at h
                  | pbool b => simp [buildResult, pyGet, bind, Except.bind] at h
                  | pint n => simp [buildResult, pyGet, bind, Except.bind] at h
                  | pfloat m ex => simp [buildResult, pyGet, bind, Except.bind] at h
                  | pnan => simp [buildResult, pyGet, bind, Except.bind] at h
                  | pinf b => simp [buildResult, pyGet, bind, Except.bind] at h
                  | pstr st => simp [buildResult, pyGet, bind, Except.bind] at h
                  | plist xs => simp [buildResult, pyGet, bind, Except.bind] at h
                  | pdatetime t => simp [buildResult, pyGet, bind, Except.bind] at h

/-- Every successful `get_task_suggestions` result comes out of
`postProcess`, whatever the backend and adapter do. -/
theorem gts_ok_postProcess (self : AITaskManagement) (td : TaskDetails)
    (ctx : List ContextEntry) (prefs : List (String × PyVal)) (load : Int) (now : DT)
    (out : List (String × PyVal))
    (h : (get_task_suggestions self td ctx prefs load now).1 = .ok out) :
    ∃ s, postProcess s td.category td.description now = .ok out := by
  unfold get_task_suggestions at h
  cases hcs : contextSummaryStep self ctx with
  | mk r calls1 =>
      simp only [hcs] at h
      cases r with
      | error e => simp at h
      | ok t =>
          cases hdump : jsonDumpsV (.pdict prefs) with
          | error e => simp [hdump] at h
          | ok pd =>
              simp only [hdump] at h
              cases hc : _call_llm self (suggestionPrompt td.title td.description
                  td.category (pyFormat t) pd load) "gpt-4o-mini" 400 with
              | mk sg c2 =>
                  simp only [hc] at h
                  exact ⟨_, h⟩

/-- Reduction of `get_task_suggestions` for an `'openai'` instance whose
adapter always returns the raw text `raw` decoding to the dict `d`: a
successful run is exactly a successful `postProcess` of `d`. -/
theorem gts_openaiConst_ok (raw : String) (d out : List (String × PyVal))
    (td : TaskDetails) (ctx : List ContextEntry) (prefs : List (String × PyVal))
    (load : Int) (now : DT)
    (hj : jsonLoads raw = .ok (.pdict d))
    (hok : (get_task_suggestions (openaiConst raw) td ctx prefs load now).1 = .ok out) :
    postProcess (.pdict d) td.category td.description now = .ok out := by
  cases ctx with
  | nil =>
      cases hdump : jsonDumpsV (.pdict prefs) with
      | error e =>
          simp only [get_task_suggestions, contextSummaryStep, hdump] at hok
          exact absurd hok (by simp)
      | ok pd =>
          simp only [get_task_suggestions, contextSummaryStep, hdump, _call_llm,
            openaiConst, mkAITaskManagement, _initialize_llm_client, hj] at hok
          simpa using hok
  | cons e es =>
      cases hdump : jsonDumpsV (.pdict prefs) with
      | error ex =>
          simp only [get_task_suggestions, contextSummaryStep, hdump, _call_llm,
            openaiConst, mkAITaskManagement, _initialize_llm_client, hj, pyGet] at hok
          exact absurd hok (by simp)
      | ok pd =>
          simp only [get_task_suggestions, contextSummaryStep, hdump, _call_llm,
            openaiConst, mkAITaskManagement, _initialize_llm_client, hj, pyGet] at hok
          simpa using hok

/-! ### Claim theorems

One theorem (plus witness / counterexample where required) per claim of
the specification, stated against the embedding above. -/

/-- Claim C1 (amended): for every LLM-layer result for which
`get_task_suggestions` returns a record, the record's `priority_score` is
the integer `priorityFinal` computes, always in `[1, 100]`: values `int()`
can coerce are clamped to the nearest bound with `max(1, min(100, .))`,
and coercion failure raising `ValueError`/`TypeError` — or absence —
yields 50. The original claim's "for every LLM-layer result" fails: an
infinite `priority_score`, which `json.loads` produces for the
`Infinity`/`-Infinity` constants and for overflowing float literals such
as `1e400`, makes `int()` raise `OverflowError`, which the handler
`except (ValueError, TypeError)` does not catch, so no record is returned
there (see the counterexample). -/
theorem claim_C1_priority_score_clamped (raw : String) (d out : List (String × PyVal))
    (td : TaskDetails) (ctx : List ContextEntry) (prefs : List (String × PyVal))
    (load : Int) (now : DT)
    (hj : jsonLoads raw = .ok (.pdict d))
    (hok : (get_task_suggestions (openaiConst raw) td ctx prefs load now).1 = .ok out) :
    dictLookup out "priority_score" =
      some (.pint (priorityFinal (dictLookup d "priority_score"))) ∧
    1 ≤ priorityFinal (dictLookup d "priority_score") ∧
    priorityFinal (dictLookup d "priority_score") ≤ 100 := by
  have hpp := gts_openaiConst_ok raw d out td ctx prefs load now hj hok
  have hlk := postProcess_ok_lookups d out td.category td.description now hpp
  exact ⟨hlk.1, (priorityFinal_range _).1, (priorityFinal_range _).2⟩

/-- Witness for claim C1 at the concrete input `priority_score = "150"`. -/
theorem claim_C1_priority_score_clamped_witness :
    dictLookup C1outS "priority_score" =
      some (.pint (priorityFinal (dictLookup C1dictS "priority_score"))) ∧
    1 ≤ priorityFinal (dictLookup C1dictS "priority_score") ∧
    priorityFinal (dictLookup C1dictS "priority_score") ≤ 100 :=
  claim_C1_priority_score_clamped C1rawS C1dictS C1outS tdSample [] [] 0 nowSample
    (by rfl) (by rfl)

set_option maxRecDepth 100000 in
set_option exponentiation.threshold 5000 in
/-- Counterexample to claim C1 as stated: `json.loads` accepts the
`Infinity` constant, and decodes the overflowing literal `1e400` to the
float infinity as well; `int()` on an infinite `priority_score` raises
`OverflowError`, which `except (ValueError, TypeError)` at the clamping
step does not catch, so `get_task_suggestions` raises instead of
returning a record with a clamped score. -/
theorem claim_C1_infinite_priority_counterexample :
    jsonLoads "\x7b\"priority_score\": Infinity\x7d" =
      .ok (.pdict [("priority_score", PyVal.pinf true)]) ∧
    (get_task_suggestions (openaiConst "\x7b\"priority_score\": Infinity\x7d")
        tdSample [] [] 0 nowSample).1 =
      .error (.overflowError "cannot convert float infinity to integer") ∧
    jsonLoads "\x7b\"priority_score\": 1e400\x7d" =
      .ok (.pdict [("priority_score", PyVal.pinf true)]) ∧
    (get_task_suggestions (openaiConst "\x7b\"priority_score\": 1e400\x7d")
        tdSample [] [] 0 nowSample).1 =
      .error (.overflowError "cannot convert float infinity to integer") :=
  ⟨by rfl, by rfl, by rfl, by rfl⟩

/-- Claim C2 (amended): whenever `get_task_suggestions` returns a record,
its deadline is the datetime `deadlineFinal` computes from the LLM
result's `deadline` field: a non-empty string accepted by
`datetime.strptime` with format `%Y-%m-%d %H:%M:%S` parses to that
timestamp, and an absent, null, falsy or strptime-rejected value yields
`now + 3 days` at 17:00:00.000; the lenient strptime accepts every string
in the exact `YYYY-MM-DD HH:MM:SS` format (second conjunct) but also
unpadded variants, and a truthy non-string deadline makes the function
raise `TypeError` instead of returning a record. -/
theorem claim_C2_deadline_strptime_or_default (raw : String)
    (d out : List (String × PyVal)) (td : TaskDetails) (ctx : List ContextEntry)
    (prefs : List (String × PyVal)) (load : Int) (now : DT)
    (y mo dd hh mi ss : Nat)
    (hj : jsonLoads raw = .ok (.pdict d))
    (hok : (get_task_suggestions (openaiConst raw) td ctx prefs load now).1 = .ok out)
    (hy1 : 1 ≤ y) (hy2 : y ≤ 9999) (hm1 : 1 ≤ mo) (hm2 : mo ≤ 12) (hd1 : 1 ≤ dd)
    (hd2 : dd ≤ daysInMonth y mo) (hh23 : hh ≤ 23) (hmi59 : mi ≤ 59) (hs59 : ss ≤ 59) :
    dictLookup out "deadline" =
      some (.pdatetime (deadlineFinal (dictLookup d "deadline") now)) ∧
    strptimeModel (exactFormatString y mo dd hh mi ss) =
      some ⟨y, mo, dd, hh, mi, ss, 0⟩ := by
  have hpp := gts_openaiConst_ok raw d out td ctx prefs load now hj hok
  have hlk := postProcess_ok_lookups d out td.category td.description now hpp
  exact ⟨hlk.2.1,
    strptimeModel_exactFormat y mo dd hh mi ss hy1 hy2 hm1 hm2 hd1 hd2 hh23 hmi59 hs59⟩

/-- Witness for claim C2 at the exactly-formatted deadline
`"2025-03-10 09:00:00"`. -/
theorem claim_C2_deadline_strptime_or_default_witness :
    dictLookup C2outS "deadline" =
      some (.pdatetime (deadlineFinal (dictLookup C2dictS "deadline") nowSample)) ∧
    strptimeModel (exactFormatString 2025 3 10 9 0 0) = some ⟨2025, 3, 10, 9, 0, 0, 0⟩ :=
  claim_C2_deadline_strptime_or_default C2rawS C2dictS C2outS tdSample [] [] 0 nowSample
    2025 3 10 9 0 0 (by rfl) (by rfl) (by norm_num) (by norm_num) (by norm_num) (by norm_num)
    (by norm_num) (by decide) (by norm_num) (by norm_num) (by norm_num)

/-- Counterexample to claim C2 as stated: the deadline string
`"2025-3-10 09:00:00"` does not match the exact `YYYY-MM-DD HH:MM:SS`
format (the month is not zero-padded), yet the returned deadline is the
parsed timestamp 2025-03-10 09:00:00, not the claimed default
`now + 3 days` at 17:00. -/
theorem claim_C2_unpadded_deadline_counterexample :
    isExactFormat "2025-3-10 09:00:00" = false ∧
    (get_task_suggestions (openaiConst "\x7b\"deadline\": \"2025-3-10 09:00:00\"\x7d")
        tdSample [] [] 0 nowSample).1 = .ok C2ceOutS ∧
    dictLookup C2ceOutS "deadline" = some (.pdatetime ⟨2025, 3, 10, 9, 0, 0, 0⟩) ∧
    (⟨2025, 3, 10, 9, 0, 0, 0⟩ : DT) ≠ defaultDeadline nowSample :=
  ⟨by rfl, by rfl, by rfl, by decide⟩

/-- Claim C3: for an adapter whose every call raises (total LLM outage),
`get_task_suggestions` does not raise past its own boundary and returns
the record with `priority_score = 50`, the default deadline
`now + 3 days` at 17:00, the input task's category and description, and
empty recommendations (the raw response retains the error detail). -/
theorem claim_C3_total_outage_defaults (errMsg dump : String) (td : TaskDetails)
    (ctx : List ContextEntry) (prefs : List (String × PyVal)) (load : Int) (now : DT)
    (hdump : jsonDumpsV (.pdict prefs) = .ok dump) :
    (get_task_suggestions (openaiOutage errMsg) td ctx prefs load now).1 =
      .ok [("priority_score", .pint 50),
           ("deadline", .pdatetime (defaultDeadline now)),
           ("suggested_category", pyOfOptStr td.category),
           ("enhanced_description", .pstr td.description),
           ("recommendations", .plist []),
           ("ai_raw_response", .pdict [("error", .pstr errMsg),
             ("deadline", .pdatetime (defaultDeadline now))])] := by
  cases ctx with
  | nil =>
      simp only [get_task_suggestions, contextSummaryStep, hdump, openaiOutage,
        mkAITaskManagement, _initialize_llm_client, _call_llm]
      rfl
  | cons e es =>
      simp only [get_task_suggestions, contextSummaryStep, hdump, openaiOutage,
        mkAITaskManagement, _initialize_llm_client, _call_llm, pyGet]
      rfl

/-- Witness for claim C3 at a concrete outage message and task. -/
theorem claim_C3_total_outage_defaults_witness :
    (get_task_suggestions (openaiOutage "network down") tdSample
        [⟨"hi", "email"⟩] [] 2 nowSample).1 =
      .ok [("priority_score", .pint 50),
           ("deadline", .pdatetime (defaultDeadline nowSample)),
           ("suggested_category", pyOfOptStr tdSample.category),
           ("enhanced_description", .pstr tdSample.description),
           ("recommendations", .plist []),
           ("ai_raw_response", .pdict [("error", .pstr "network down"),
             ("deadline", .pdatetime (defaultDeadline nowSample))])] :=
  claim_C3_total_outage_defaults "network down" "\x7b\x7d" tdSample
    [⟨"hi", "email"⟩] [] 2 nowSample (by rfl)

/-- Claim C4: for an empty context-entry sequence the context summary
equals exactly the literal "No daily context available." and no
summarization call is made: the run's only network call is the suggestion
call (model `gpt-4o-mini`, 400-token budget) whose prompt embeds that
literal. -/
theorem claim_C4_empty_context_no_summarization (f : LLMCall → AdapterOutcome)
    (td : TaskDetails) (prefs : List (String × PyVal)) (load : Int) (now : DT)
    (dump : String) (hdump : jsonDumpsV (.pdict prefs) = .ok dump) :
    contextSummaryStep (mkAITaskManagement .openai f) [] =
      (.ok (.pstr "No daily context available."), []) ∧
    (get_task_suggestions (mkAITaskManagement .openai f) td [] prefs load now).2 =
      [⟨suggestionPrompt td.title td.description td.category
          "No daily context available." dump load, "gpt-4o-mini", 400⟩] := by
  refine ⟨rfl, ?_⟩
  unfold get_task_suggestions
  simp only [contextSummaryStep, hdump]
  cases hc : _call_llm (mkAITaskManagement .openai f)
      (suggestionPrompt td.title td.description td.category
        (pyFormat (.pstr "No daily context available.")) dump load) "gpt-4o-mini" 400 with
  | mk sg c2 =>
      have ht := _call_llm_openai_trace f (suggestionPrompt td.title td.description
        td.category (pyFormat (.pstr "No daily context available.")) dump load)
        "gpt-4o-mini" 400
      rw [hc] at ht
      simp only [hc]
      simpa using ht

/-- Witness for claim C4 at a concrete raising adapter and empty
preferences. -/
theorem claim_C4_empty_context_no_summarization_witness :
    contextSummaryStep (mkAITaskManagement .openai (fun _ => .failure "boom")) [] =
      (.ok (.pstr "No daily context available."), []) ∧
    (get_task_suggestions (mkAITaskManagement .openai (fun _ => .failure "boom"))
        tdSample [] [] 0 nowSample).2 =
      [⟨suggestionPrompt tdSample.title tdSample.description tdSample.category
          "No daily context available." "\x7b\x7d" 0, "gpt-4o-mini", 400⟩] :=
  claim_C4_empty_context_no_summarization (fun _ => .failure "boom") tdSample [] 0
    nowSample "\x7b\x7d" (by rfl)

/-- Claim C5 (amended): for a non-empty context, if the summarization call
fails in any modelled way (adapter raise, undecodable response,
uninitialized client) or its decoded result is a JSON object without a
"summary" key — all of which yield a dict without that key — the context
summary equals the first 200 characters of the concatenated raw context
followed by "..."; a successful call whose valid JSON is not an object
makes the summarizer raise `AttributeError` instead (see the
counterexample), so the summarizer is not unconditionally non-failing. -/
theorem claim_C5_summary_fallback (self : AITaskManagement) (e : ContextEntry)
    (es : List ContextEntry) (d : List (String × PyVal))
    (hcall : (_call_llm self (contextSummaryPromptOf (e :: es))
        "gpt-3.5-turbo" 150).1 = .pdict d)
    (hsum : dictLookup d "summary" = none) :
    (contextSummaryStep self (e :: es)).1 =
      .ok (.pstr ((combinedContextOf (e :: es)).take 200 ++ "...")) := by
  unfold contextSummaryStep
  cases hp : _call_llm self (contextSummaryPromptOf (e :: es)) "gpt-3.5-turbo" 150 with
  | mk resp calls =>
      rw [hp] at hcall
      simp only at hcall
      subst hcall
      simp [pyGet, dictLookupD, hsum]

/-- Witness for claim C5: an uninitialized (claude) client yields the
empty dict, and the summary falls back to the concatenated context. -/
theorem claim_C5_summary_fallback_witness :
    (contextSummaryStep (mkAITaskManagement .claude (fun _ => .success "x"))
        [⟨"abc", "note"⟩]).1 =
      .ok (.pstr ((combinedContextOf [⟨"abc", "note"⟩]).take 200 ++ "...")) :=
  claim_C5_summary_fallback (mkAITaskManagement .claude (fun _ => .success "x"))
    ⟨"abc", "note"⟩ [] [] (by rfl) rfl

/-- Counterexample to claim C5 as stated: a summarization call that
succeeds with the valid JSON text "[1, 2]" — a result with no "summary"
key — does not fall back to the first 200 characters; `.get` on the
decoded list raises `AttributeError` and the summarizer fails. -/
theorem claim_C5_nonobject_counterexample :
    (contextSummaryStep (openaiConst "[1, 2]") [⟨"hi", "email"⟩]).1 =
      .error (.attributeError "'list' object has no attribute 'get'") := by rfl

/-- Claim C6 (amended): for every non-empty context-entry sequence, the
sole summarization call (`gpt-3.5-turbo`, capped at 150 output tokens) is
the run's first network call, and the context passed to it consists of one
line per entry in input order of exactly the form
`"Source: <source_type>: <content>"` — not `"<source_type>: <content>"`
as the claim stated (see the counterexample); any further network call is
the suggestion call (`gpt-4o-mini`). -/
theorem claim_C6_summarization_call_format (e : ContextEntry) (es : List ContextEntry)
    (f : LLMCall → AdapterOutcome) (td : TaskDetails) (prefs : List (String × PyVal))
    (load : Int) (now : DT) :
    (get_task_suggestions (mkAITaskManagement .openai f) td (e :: es)
        prefs load now).2.head? =
      some ⟨"Summarize the following daily context in a concise manner, highlighting any urgent matters, commitments, or schedule conflicts.\n            Context:\n            " ++
        String.intercalate "\n"
          ((e :: es).map fun c => "Source: " ++ c.source_type ++ ": " ++ c.content) ++
        "\n            ", "gpt-3.5-turbo", 150⟩ ∧
    ((get_task_suggestions (mkAITaskManagement .openai f) td (e :: es)
        prefs load now).2.countP (fun c => c.model_name == "gpt-3.5-turbo")) = 1 ∧
    ∀ c ∈ (get_task_suggestions (mkAITaskManagement .openai f) td (e :: es)
        prefs load now).2.tail, c.model_name = "gpt-4o-mini" := by
  unfold get_task_suggestions
  cases hcs : contextSummaryStep (mkAITaskManagement .openai f) (e :: es) with
  | mk r calls1 =>
      have htr := contextSummaryStep_openai_trace f e es
      rw [hcs] at htr
      simp only at htr
      subst htr
      cases r with
      | error ex =>
          simp [contextSummaryPromptOf, combinedContextOf, List.countP, List.countP.go]
      | ok t =>
          cases hdump : jsonDumpsV (.pdict prefs) with
          | error ex =>
              simp [hdump, contextSummaryPromptOf, combinedContextOf, List.countP,
                List.countP.go]
          | ok pd =>
              simp only [hdump]
              cases hc2 : _call_llm (mkAITaskManagement .openai f)
                  (suggestionPrompt td.title td.description td.category (pyFormat t)
                    pd load) "gpt-4o-mini" 400 with
              | mk sg c2 =>
                  have ht2 := _call_llm_openai_trace f (suggestionPrompt td.title
                    td.description td.category (pyFormat t) pd load) "gpt-4o-mini" 400
                  rw [hc2] at ht2
                  simp only at ht2
                  subst ht2
                  simp [contextSummaryPromptOf, combinedContextOf, List.countP,
                    List.countP.go]

/-- Counterexample to claim C6 as stated: the context line for an entry
with source type "email" and content "hi" is "Source: email: hi", not
"email: hi". -/
theorem claim_C6_line_format_counterexample :
    combinedContextOf [⟨"hi", "email"⟩] = "Source: email: hi" ∧
    "Source: email: hi" ≠ "email: hi" := ⟨by rfl, by decide⟩

/-- Claim C7: for every LLM-layer result, the `recommendations` field of
the returned record is always a list, computed by `recommendationsFinal`:
a list passes through unchanged, while a non-list value (for example the
string "do it now") or an absent field yields the empty list. -/
theorem claim_C7_recommendations_list (raw : String) (d out : List (String × PyVal))
    (td : TaskDetails) (ctx : List ContextEntry) (prefs : List (String × PyVal))
    (load : Int) (now : DT)
    (hj : jsonLoads raw = .ok (.pdict d))
    (hok : (get_task_suggestions (openaiConst raw) td ctx prefs load now).1 = .ok out) :
    dictLookup out "recommendations" =
      some (recommendationsFinal (dictLookup d "recommendations")) ∧
    isPyList (recommendationsFinal (dictLookup d "recommendations")) = true := by
  have hpp := gts_openaiConst_ok raw d out td ctx prefs load now hj hok
  have hlk := postProcess_ok_lookups d out td.category td.description now hpp
  exact ⟨hlk.2.2, recommendationsFinal_isList _⟩

/-- Witness for claim C7 at `recommendations = "do it now"`. -/
theorem claim_C7_recommendations_list_witness :
    dictLookup C7outS "recommendations" =
      some (recommendationsFinal (dictLookup C7dictS "recommendations")) ∧
    isPyList (recommendationsFinal (dictLookup C7dictS "recommendations")) = true :=
  claim_C7_recommendations_list C7rawS C7dictS C7outS tdSample [] [] 0 nowSample
    (by rfl) (by rfl)

/-- Claim C8 (amended): for every raw response text that is not valid
JSON, `_call_llm` does not throw: it returns the typed failure dict
`{"error": "JSON decoding failed", "details": <decode error message>}`.
The original raw text is only printed to the server log; it is not carried
in the returned value (see the counterexample). -/
theorem claim_C8_decode_failure_dict (raw msg p m : String) (t : Nat)
    (hj : jsonLoads raw = .error msg) :
    _call_llm (openaiConst raw) p m t =
      (.pdict [("error", .pstr "JSON decoding failed"), ("details", .pstr msg)],
       [⟨p, m, t⟩]) := by
  unfold _call_llm openaiConst mkAITaskManagement _initialize_llm_client
  simp [hj]

/-- Witness for claim C8 at a concrete non-JSON response text. -/
theorem claim_C8_decode_failure_dict_witness :
    _call_llm (openaiConst "this is not json at all!!") "p" "m" 500 =
      (.pdict [("error", .pstr "JSON decoding failed"),
               ("details", .pstr "Expecting value: line 1 column 1 (char 0)")],
       [⟨"p", "m", 500⟩]) :=
  claim_C8_decode_failure_dict "this is not json at all!!"
    "Expecting value: line 1 column 1 (char 0)" "p" "m" 500 (by rfl)

/-- Counterexample to claim C8 as stated: the returned Failure for the raw
text "this is not json at all!!" consists exactly of the fixed marker and
the position-only decode message; the raw text does not occur in any of
its strings, so the Failure does not carry the original raw text. -/
theorem claim_C8_raw_text_not_carried_counterexample :
    (_call_llm (openaiConst "this is not json at all!!") "p" "m" 500).1 =
      .pdict [("error", .pstr "JSON decoding failed"),
              ("details", .pstr "Expecting value: line 1 column 1 (char 0)")] ∧
    occursIn "this is not json at all!!".toList "JSON decoding failed".toList = false ∧
    occursIn "this is not json at all!!".toList
      "Expecting value: line 1 column 1 (char 0)".toList = false ∧
    occursIn "this is not json at all!!".toList "error".toList = false ∧
    occursIn "this is not json at all!!".toList "details".toList = false :=
  ⟨by rfl, by decide, by decide, by decide, by decide⟩

/-- Claim C9 (amended): invoking `_call_llm` on an instance configured
with the `'claude'` backend returns the empty dict `{}` with no network
call attempted — the same silent value an uninitialized adapter returns;
the unimplemented state is only printed to the log, and the returned value
carries no failure marker (see the counterexample). -/
theorem claim_C9_claude_returns_empty (f : LLMCall → AdapterOutcome) (p m : String)
    (t : Nat) :
    _call_llm (mkAITaskManagement .claude f) p m t = (.pdict [], []) := by rfl

/-- Counterexample to claim C9 as stated: with the `'claude'` backend the
result is the empty dict — it has no "error" key marking the backend
unimplemented, and no call reaches the adapter, even one that would
succeed. -/
theorem claim_C9_no_failure_marker_counterexample :
    (_call_llm (mkAITaskManagement .claude (fun _ => .success "\x7b\"a\": 1\x7d"))
        "p" "m" 5).1 = .pdict [] ∧
    dictLookup ([] : List (String × PyVal)) "error" = none ∧
    (_call_llm (mkAITaskManagement .claude (fun _ => .success "\x7b\"a\": 1\x7d"))
        "p" "m" 5).2 = [] :=
  ⟨by rfl, rfl, by rfl⟩

/-- Claim C10: whenever `get_task_suggestions` returns a mapping — for any
backend, adapter behaviour (including total failure) and initialization
state — that mapping has exactly the six keys `priority_score`,
`deadline`, `suggested_category`, `enhanced_description`,
`recommendations` and `ai_raw_response`, in that order; in particular the
`priority_score` and `deadline` lookups of the lifecycle hook always find
a value, so its `.get(...)` fallback defaults are never used. -/
theorem claim_C10_exactly_six_keys (self : AITaskManagement) (td : TaskDetails)
    (ctx : List ContextEntry) (prefs : List (String × PyVal)) (load : Int) (now : DT)
    (out : List (String × PyVal))
    (hok : (get_task_suggestions self td ctx prefs load now).1 = .ok out) :
    out.map Prod.fst = ["priority_score", "deadline", "suggested_category",
      "enhanced_description", "recommendations", "ai_raw_response"] ∧
    (dictLookup out "priority_score").isSome = true ∧
    (dictLookup out "deadline").isSome = true := by
  obtain ⟨s, hs⟩ := gts_ok_postProcess self td ctx prefs load now out hok
  obtain ⟨p, dl, c, e, r, a, rfl⟩ :=
    postProcess_shape s td.category td.description now out hs
  refine ⟨rfl, ?_, ?_⟩ <;> simp [dictLookup]

/-- Witness for claim C10 under a total-outage adapter. -/
theorem claim_C10_exactly_six_keys_witness :
    C10outS.map Prod.fst = ["priority_score", "deadline", "suggested_category",
      "enhanced_description", "recommendations", "ai_raw_response"] ∧
    (dictLookup C10outS "priority_score").isSome = true ∧
    (dictLookup C10outS "deadline").isSome = true :=
  claim_C10_exactly_six_keys (openaiOutage "down") tdSample [] [] 0 nowSample C10outS
    (by rfl)
